import Mathlib

/-!
Shallow embedding of the body-systems race simulator (`src/app.py`).

Python floats are modelled as exact rationals; all arithmetic in the
source is `+ - * / min max` and comparisons, which ℚ models faithfully.
Mutation of a `BodySystemRunner` is modelled by returning an updated
record; the `while` loop of `simulate_race` is modelled by a fuelled
recursion whose fuel provably never runs out for a positive time step.
-/

namespace DrSonic

/-- Track length configuration constant (source line 14). -/
def RACE_DISTANCE : ℚ := 200

/-- Simulation time step configuration constant (source line 15). -/
def DT : ℚ := 1/10

/-- Safety cap on simulated time (source line 16). -/
def MAX_RACE_TIME : ℚ := 40

/-- The `BodySystemRunner` dataclass: static parameters plus the dynamic
race state (source lines 23-45). -/
structure Runner where
  name : String
  system : String
  lane : Int
  acceleration : ℚ
  top_speed : ℚ
  stamina_max : ℚ
  stamina_regen : ℚ
  burst_multiplier : ℚ
  fatigue_factor : ℚ
  personality : String
  ability : String
  position : ℚ
  speed : ℚ
  stamina : ℚ
  finished : Bool
  finish_time : Option ℚ
deriving DecidableEq

/-- Build a runner from its static parameters with the dataclass defaults
and `__post_init__`: position 0, speed 0, stamina = stamina_max, not
finished, no finish time (source lines 41-49). -/
def mkRunner (name system : String) (lane : Int)
    (acceleration top_speed stamina_max stamina_regen
     burst_multiplier fatigue_factor : ℚ)
    (personality ability : String) : Runner :=
  { name := name, system := system, lane := lane,
    acceleration := acceleration, top_speed := top_speed,
    stamina_max := stamina_max, stamina_regen := stamina_regen,
    burst_multiplier := burst_multiplier, fatigue_factor := fatigue_factor,
    personality := personality, ability := ability,
    position := 0, speed := 0, stamina := stamina_max,
    finished := false, finish_time := none }

/-- Python `int()` truncation toward zero on a rational. -/
def pyInt (q : ℚ) : Int := if 0 ≤ q then ⌊q⌋ else -⌊-q⌋

/-- Stage 1: personality-based target speed (source lines 58-74). -/
def personalityTarget (r : Runner) (race_progress : ℚ) : ℚ :=
  let base_target := 0.8 * r.top_speed
  if r.personality = "aggressive" then
    min r.top_speed (base_target + 0.15 * r.top_speed)
  else if r.personality = "calm" then base_target
  else if r.personality = "tactical" then
    if race_progress < 0.4 then 0.7 * r.top_speed
    else if race_progress < 0.8 then 0.9 * r.top_speed
    else r.top_speed
  else if r.personality = "steady" then 0.85 * r.top_speed
  else base_target

/-- Stage 2, stamina-affecting abilities: `heart_engine` then
`deep_inhale`, both adding to the current stamina (source lines 81-88).
Python's `int(self.position) % 20` is truncation toward zero followed by a
mod that is nonnegative for the positive modulus 20, which `pyInt` and
`Int.emod` reproduce. -/
def abilityStamina (r : Runner) (dt : ℚ) : ℚ :=
  let s1 := if r.ability = "heart_engine" ∧ r.speed < r.top_speed then
      r.stamina + r.stamina_regen * 1.2 * dt
    else r.stamina
  if r.ability = "deep_inhale" ∧ pyInt r.position % 20 = 0 ∧ 0 < r.position then
    s1 + r.stamina_regen * 3.0 * dt
  else s1

/-- Stage 2, target-speed-affecting abilities (source lines 91-109).
`st` is the stamina value the `energy_conversion` branch reads, i.e. the
value after the stamina-affecting abilities ran. -/
def abilityTarget (r : Runner) (tgt global_time race_progress st : ℚ) : ℚ :=
  let t1 := if r.ability = "power_burst" ∧ race_progress < 0.25 then
      min (r.top_speed * 1.1) (tgt * 1.15)
    else tgt
  let t2 := if r.ability = "reflex_start" ∧ global_time < 1.5 then
      min r.top_speed (t1 * 1.2)
    else t1
  let t3 := if r.ability = "adrenaline_surge" ∧ 0.6 < race_progress then
      min (r.top_speed * r.burst_multiplier) (t2 * r.burst_multiplier)
    else t2
  if r.ability = "energy_conversion" ∧ st < 0.3 * r.stamina_max then
    min (r.top_speed * 1.05) (t3 * 1.1)
  else t3

/-- Stage 3 speed fraction with the division-by-zero guard
(source line 117). -/
def speedFraction (r : Runner) : ℚ :=
  if 0 < r.top_speed then r.speed / r.top_speed else 0

/-- Stage 3: stamina drain, low-speed regen, and clamping to
`[0, stamina_max]` (source lines 118-125). `st` is the stamina entering
the stage. -/
def drainedStamina (r : Runner) (st dt : ℚ) : ℚ :=
  let sf := speedFraction r
  let drain_rate := 0.5 + 1.5 * sf
  let s1 := st - drain_rate * dt
  let s2 := if sf < 0.7 then s1 + r.stamina_regen * dt else s1
  max 0 (min s2 r.stamina_max)

/-- Stage 4: fatigue penalty and effective target speed
(source lines 131-141). `tgt` is the ability-adjusted target speed and
`st` the clamped stamina. -/
def effectiveTarget (r : Runner) (tgt st : ℚ) : ℚ :=
  let stamina_fraction := if 0 < r.stamina_max then st / r.stamina_max else 0
  let fp := (1 - stamina_fraction) * r.fatigue_factor
  let fp2 := if r.ability = "fatigue_shield" then fp * 0.4 else fp
  let e := max 0 (tgt * (1 - fp2))
  if r.ability = "structural_stability" then
    max (0.9 * 0.85 * r.top_speed) e
  else e

/-- Stage 5: move the current speed toward the effective target without
overshooting, then clamp at 0 (source lines 146-155). -/
def approachSpeed (r : Runner) (ets dt : ℚ) : ℚ :=
  let s := if r.speed < ets then
      let s1 := r.speed + r.acceleration * dt
      if ets < s1 then ets else s1
    else
      let s1 := r.speed - r.acceleration * 1.3 * dt
      if s1 < ets then ets else s1
  max 0 s

/-- The stamina a not-yet-finished runner carries out of stage 3: the
ability additions followed by drain, regen and clamping. -/
def newStamina (r : Runner) (dt : ℚ) : ℚ :=
  drainedStamina r (abilityStamina r dt) dt

/-- The speed a not-yet-finished runner carries out of stage 5: stages
1-4 determine the effective target, which stage 5 approaches. -/
def newSpeed (r : Runner) (dt global_time race_progress : ℚ) : ℚ :=
  approachSpeed r
    (effectiveTarget r
      (abilityTarget r (personalityTarget r race_progress) global_time
        race_progress (abilityStamina r dt))
      (newStamina r dt))
    dt

/-- The single-tick update, a direct translation of
`BodySystemRunner.update` (source lines 51-166). `rd` is the
`RACE_DISTANCE` configuration constant the method reads. -/
def update (rd : ℚ) (r : Runner) (dt global_time race_progress : ℚ) : Runner :=
  if r.finished then r
  else
    let st := newStamina r dt
    let sp := newSpeed r dt global_time race_progress
    let pos := r.position + sp * dt
    if rd ≤ pos then
      { r with position := rd, speed := sp, stamina := st,
               finished := true, finish_time := some global_time }
    else
      { r with position := pos, speed := sp, stamina := st }

/-- One snapshot of the race (source lines 298-303). -/
structure Frame where
  time : ℚ
  positions : List ℚ
  stamina : List ℚ
  speeds : List ℚ
deriving DecidableEq

/-- The race progress computed from pre-tick positions
(source lines 292-293). -/
def raceProgress (rd : ℚ) (rs : List Runner) : ℚ :=
  let avg := (rs.map (fun r => r.position)).sum / (rs.length : ℚ)
  if 0 < rd then avg / rd else 0

/-- One loop-body iteration at global time `t`: compute the shared race
progress from pre-tick positions, then update every runner with it
(source lines 292-296). -/
def tickAll (rd dt t : ℚ) (rs : List Runner) : List Runner :=
  rs.map (fun r => update rd r dt t (raceProgress rd rs))

/-- The snapshot recorded after all runners are ticked
(source lines 298-304). -/
def mkFrame (t : ℚ) (rs : List Runner) : Frame :=
  { time := t, positions := rs.map (fun r => r.position),
    stamina := rs.map (fun r => r.stamina),
    speeds := rs.map (fun r => r.speed) }

/-- Python's `all(r.finished for r in runners)`. -/
def allFinished (rs : List Runner) : Bool := rs.all (fun r => r.finished)

/-- The `while` guard (source line 291). -/
def loopCont (maxT t : ℚ) (rs : List Runner) : Bool :=
  decide (t < maxT) && ! allFinished rs

/-- The race loop with explicit fuel, mirroring the `while` loop of
`simulate_race` (source lines 286-308); the fuel supplied by
`simulateRace` provably never runs out when `dt > 0`. Returns the frame
list, the final runners, and the final value of the loop variable `t`. -/
def runLoop (rd dt maxT : ℚ) :
    Nat → ℚ → List Runner → List Frame → List Frame × List Runner × ℚ
  | 0, t, rs, fs => (fs.reverse, rs, t)
  | fuel+1, t, rs, fs =>
    if loopCont maxT t rs then
      let rs2 := tickAll rd dt t rs
      runLoop rd dt maxT fuel (t + dt) rs2 (mkFrame t rs2 :: fs)
    else (fs.reverse, rs, t)

/-- Enough fuel to drive `t` from 0 past `maxT` in steps of `dt`. -/
def raceFuel (dt maxT : ℚ) : Nat := (⌈maxT / dt⌉).toNat + 1

/-- `simulate_race`, generalized over the three configuration constants
it reads (source lines 286-308). -/
def simulateRace (rd dt maxT : ℚ) (rs : List Runner) :
    List Frame × List Runner × ℚ :=
  runLoop rd dt maxT (raceFuel dt maxT) 0 rs []

/-- The runner states after `n` unguarded loop iterations; iteration `k`
runs at global time `k*dt`. The guarded loop performs a prefix of exactly
these iterations. -/
def raceState (rd dt : ℚ) (rs : List Runner) : Nat → List Runner
  | 0 => rs
  | n+1 => tickAll rd dt ((n : ℚ) * dt) (raceState rd dt rs n)

/-- Iterations `j, j+1, ..., j+n-1` of the loop body applied to `rs`;
used to evaluate long runs in bounded-depth pieces. -/
def ticksFrom (rd dt : ℚ) (j : Nat) (rs : List Runner) : Nat → List Runner
  | 0 => rs
  | n+1 => tickAll rd dt (((j + n : Nat) : ℚ) * dt) (ticksFrom rd dt j rs n)

/-- The Python `sort_key`: finish time, with the large sentinel for DNF
(source lines 426-427). -/
def sortKey (r : Runner) : ℚ :=
  match r.finish_time with
  | some t => t
  | none => 1e9

/-- The sort-key ordering on runners. -/
def rkLE (a b : Runner) : Prop := sortKey a ≤ sortKey b

instance : DecidableRel rkLE := fun a b => inferInstanceAs (Decidable (_ ≤ _))

instance : IsTotal Runner rkLE := ⟨fun a b => le_total _ _⟩

instance : IsTrans Runner rkLE := ⟨fun _ _ _ => le_trans⟩

/-- Python's `sorted(runners, key=sort_key)` (source line 429): a stable
sort on the key; `sorted` is specified as a stable sort, which insertion
sort realizes. -/
def ranking (rs : List Runner) : List Runner :=
  List.insertionSort rkLE rs

/-- Division that fails on a zero denominator, exactly where Python's `/`
would raise; used to state that the guarded code never divides by zero. -/
def pyDiv (a b : ℚ) : Option ℚ := if b = 0 then none else some (a / b)

/-- Stage 3 with checked division at `speed / top_speed`
(source line 117-125). -/
def drainedStaminaChecked (r : Runner) (st dt : ℚ) : Option ℚ := do
  let sf ← if 0 < r.top_speed then pyDiv r.speed r.top_speed else pure 0
  let s1 := st - (0.5 + 1.5 * sf) * dt
  let s2 := if sf < 0.7 then s1 + r.stamina_regen * dt else s1
  pure (max 0 (min s2 r.stamina_max))

/-- Stage 4 with checked division at `stamina / stamina_max`
(source lines 131-141). -/
def effectiveTargetChecked (r : Runner) (tgt st : ℚ) : Option ℚ := do
  let stamina_fraction ← if 0 < r.stamina_max then pyDiv st r.stamina_max else pure 0
  let fp := (1 - stamina_fraction) * r.fatigue_factor
  let fp2 := if r.ability = "fatigue_shield" then fp * 0.4 else fp
  let e := max 0 (tgt * (1 - fp2))
  pure (if r.ability = "structural_stability" then
      max (0.9 * 0.85 * r.top_speed) e
    else e)

/-- The single-tick update with every division checked. -/
def updateChecked (rd : ℚ) (r : Runner) (dt global_time race_progress : ℚ) :
    Option Runner :=
  if r.finished then some r
  else do
    let tgt0 := personalityTarget r race_progress
    let st0 := abilityStamina r dt
    let tgt := abilityTarget r tgt0 global_time race_progress st0
    let st ← drainedStaminaChecked r st0 dt
    let ets ← effectiveTargetChecked r tgt st
    let sp := approachSpeed r ets dt
    let pos := r.position + sp * dt
    pure (if rd ≤ pos then
        { r with position := rd, speed := sp, stamina := st,
                 finished := true, finish_time := some global_time }
      else
        { r with position := pos, speed := sp, stamina := st })

/-- The race-progress computation with checked divisions
(source lines 292-293). -/
def raceProgressChecked (rd : ℚ) (rs : List Runner) : Option ℚ := do
  let avg ← pyDiv ((rs.map (fun r => r.position)).sum) ((rs.length : ℚ))
  if 0 < rd then pyDiv avg rd else pure 0

/-- Fallible map over the roster: fails as soon as one update fails. -/
def mapChecked (f : Runner → Option Runner) : List Runner → Option (List Runner)
  | [] => some []
  | r :: t => do
    let r2 ← f r
    let t2 ← mapChecked f t
    pure (r2 :: t2)

/-- One loop-body iteration with checked divisions. -/
def tickAllChecked (rd dt t : ℚ) (rs : List Runner) : Option (List Runner) := do
  let p ← raceProgressChecked rd rs
  mapChecked (fun r => updateChecked rd r dt t p) rs

/-- The race loop with checked divisions. -/
def runLoopChecked (rd dt maxT : ℚ) :
    Nat → ℚ → List Runner → List Frame →
    Option (List Frame × List Runner × ℚ)
  | 0, t, rs, fs => some (fs.reverse, rs, t)
  | fuel+1, t, rs, fs =>
    if loopCont maxT t rs then do
      let rs2 ← tickAllChecked rd dt t rs
      runLoopChecked rd dt maxT fuel (t + dt) rs2 (mkFrame t rs2 :: fs)
    else some (fs.reverse, rs, t)

/-- `simulate_race` with checked divisions. -/
def simulateRaceChecked (rd dt maxT : ℚ) (rs : List Runner) :
    Option (List Frame × List Runner × ℚ) :=
  runLoopChecked rd dt maxT (raceFuel dt maxT) 0 rs []

/-- States reachable from `r0` by repeated single-tick updates with a
positive time step (arbitrary global time and race progress each tick). -/
inductive Reach (rd : ℚ) (r0 : Runner) : Runner → Prop
  | refl : Reach rd r0 r0
  | step {r : Runner} (dt global_time race_progress : ℚ) :
      Reach rd r0 r → 0 < dt →
      Reach rd r0 (update rd r dt global_time race_progress)

/-- Numerator/denominator pair of a rational; structure-level equality of
rationals is decided through these projections. -/
def qfp (q : ℚ) : Int × Nat := (q.num, q.den)

/-- A runner with every rational field replaced by its
numerator/denominator pair; two runners are equal iff their fingerprints
are, which is cheap to decide on concrete states. -/
def fingerprint (r : Runner) :
    List String × List (Int × Nat) × Bool × Option (Int × Nat) :=
  ([r.name, r.system, r.personality, r.ability],
   [(r.lane, 0), qfp r.acceleration, qfp r.top_speed, qfp r.stamina_max,
    qfp r.stamina_regen, qfp r.burst_multiplier, qfp r.fatigue_factor,
    qfp r.position, qfp r.speed, qfp r.stamina],
   r.finished, r.finish_time.map qfp)

/-- The single competitor of the reference scenario: acceleration 5, top
speed 10, stamina 100, regen 10, burst multiplier 1, no fatigue, calm, no
ability. -/
def c2runner : Runner :=
  mkRunner "" "" 0 5 10 100 10 1 0 "calm" ""

/-- The bound from the specification: top speed scaled by the larger of
the burst multiplier and 1.1. -/
def speedBound (r : Runner) : ℚ := r.top_speed * max r.burst_multiplier 1.1

/-- A runner whose listed static constraints all hold but whose
acceleration is negative. -/
def ce1runner : Runner :=
  mkRunner "" "" 0 (-100) 1 (1/2) 0 1 2 "calm" ""

/-- A runner with negative top speed and otherwise ordinary parameters. -/
def ce8runner : Runner :=
  mkRunner "" "" 0 1 (-1) 1 0 1 2 "calm" ""

/-- A `deep_inhale` runner standing exactly at the 40 m mark. -/
def lungRunner : Runner :=
  { mkRunner "" "" 0 5 10 100 10 1 0 "calm" "deep_inhale" with position := 40 }

/-- Two distinct finished runners with the same finish time. -/
def tieRunnerA : Runner :=
  { mkRunner "A" "" 1 1 1 1 1 1 1 "calm" "" with
      finished := true, finish_time := some 5 }

/-- Companion of `tieRunnerA` with a different name. -/
def tieRunnerB : Runner :=
  { mkRunner "B" "" 2 1 1 1 1 1 1 "calm" "" with
      finished := true, finish_time := some 5 }

/-- A runner that did not finish. -/
def dnfRunner : Runner := mkRunner "D" "" 3 1 1 1 1 1 1 "calm" ""

/-- A finished runner with finish time 3. -/
def fastRunner : Runner :=
  { mkRunner "F" "" 4 1 1 1 1 1 1 "calm" "" with
      finished := true, finish_time := some 3 }

/-- A roster mixing a DNF, a slower and a faster finisher. -/
def demoRoster : List Runner := [dnfRunner, tieRunnerA, fastRunner]

/-! ## Basic lemmas about the single-tick update -/

lemma update_of_finished (rd : ℚ) (r : Runner) (dt gt rp : ℚ)
    (h : r.finished = true) : update rd r dt gt rp = r := by
  simp [update, h]

lemma update_acceleration (rd : ℚ) (r : Runner) (dt gt rp : ℚ) :
    (update rd r dt gt rp).acceleration = r.acceleration := by
  unfold update; split
  · rfl
  · dsimp only; split <;> rfl

lemma update_top_speed (rd : ℚ) (r : Runner) (dt gt rp : ℚ) :
    (update rd r dt gt rp).top_speed = r.top_speed := by
  unfold update; split
  · rfl
  · dsimp only; split <;> rfl

lemma update_stamina_max (rd : ℚ) (r : Runner) (dt gt rp : ℚ) :
    (update rd r dt gt rp).stamina_max = r.stamina_max := by
  unfold update; split
  · rfl
  · dsimp only; split <;> rfl

lemma update_stamina_regen (rd : ℚ) (r : Runner) (dt gt rp : ℚ) :
    (update rd r dt gt rp).stamina_regen = r.stamina_regen := by
  unfold update; split
  · rfl
  · dsimp only; split <;> rfl

lemma update_burst_multiplier (rd : ℚ) (r : Runner) (dt gt rp : ℚ) :
    (update rd r dt gt rp).burst_multiplier = r.burst_multiplier := by
  unfold update; split
  · rfl
  · dsimp only; split <;> rfl

lemma update_fatigue_factor (rd : ℚ) (r : Runner) (dt gt rp : ℚ) :
    (update rd r dt gt rp).fatigue_factor = r.fatigue_factor := by
  unfold update; split
  · rfl
  · dsimp only; split <;> rfl

lemma update_personality (rd : ℚ) (r : Runner) (dt gt rp : ℚ) :
    (update rd r dt gt rp).personality = r.personality := by
  unfold update; split
  · rfl
  · dsimp only; split <;> rfl

lemma update_ability (rd : ℚ) (r : Runner) (dt gt rp : ℚ) :
    (update rd r dt gt rp).ability = r.ability := by
  unfold update; split
  · rfl
  · dsimp only; split <;> rfl

lemma update_speed (rd : ℚ) (r : Runner) (dt gt rp : ℚ)
    (h : r.finished = false) :
    (update rd r dt gt rp).speed = newSpeed r dt gt rp := by
  simp only [update, h, Bool.false_eq_true, if_false]
  split <;> rfl

lemma update_stamina_eq (rd : ℚ) (r : Runner) (dt gt rp : ℚ)
    (h : r.finished = false) :
    (update rd r dt gt rp).stamina = newStamina r dt := by
  simp only [update, h, Bool.false_eq_true, if_false]
  split <;> rfl

lemma update_position_eq (rd : ℚ) (r : Runner) (dt gt rp : ℚ)
    (h : r.finished = false) :
    (update rd r dt gt rp).position =
      if rd ≤ r.position + newSpeed r dt gt rp * dt then rd
      else r.position + newSpeed r dt gt rp * dt := by
  simp only [update, h, Bool.false_eq_true, if_false]
  split <;> rfl

/-! ## Bounds for the staged computations (claims C1, C4, C8) -/

lemma personalityTarget_bounds (r : Runner) (rp : ℚ) (hts : 0 ≤ r.top_speed) :
    0 ≤ personalityTarget r rp ∧ personalityTarget r rp ≤ r.top_speed := by
  unfold personalityTarget
  dsimp only
  split_ifs
  · exact ⟨le_min hts (by linarith), min_le_left _ _⟩
  · constructor <;> linarith
  · constructor <;> linarith
  · constructor <;> linarith
  · exact ⟨hts, le_refl _⟩
  · constructor <;> linarith
  · constructor <;> linarith

/-- Bounding one ability branch of the shape
`if c then min a (t * m) else t`. -/
lemma ite_min_bound (c : Prop) [Decidable c] {a t m B : ℚ}
    (ha0 : 0 ≤ a) (haB : a ≤ B) (ht0 : 0 ≤ t) (htB : t ≤ B) (hm : 0 ≤ m) :
    0 ≤ (if c then min a (t * m) else t) ∧
      (if c then min a (t * m) else t) ≤ B := by
  split_ifs
  · exact ⟨le_min ha0 (mul_nonneg ht0 hm), le_trans (min_le_left _ _) haB⟩
  · exact ⟨ht0, htB⟩

lemma abilityTarget_bounds (r : Runner) (tgt gt rp st : ℚ) {B : ℚ}
    (hts : 0 ≤ r.top_speed) (hbm : 0 ≤ r.burst_multiplier)
    (h0 : 0 ≤ tgt) (htB : tgt ≤ B)
    (h11 : r.top_speed * 1.1 ≤ B) (hB : r.top_speed ≤ B)
    (hbmB : r.top_speed * r.burst_multiplier ≤ B)
    (h105 : r.top_speed * 1.05 ≤ B) :
    0 ≤ abilityTarget r tgt gt rp st ∧ abilityTarget r tgt gt rp st ≤ B := by
  unfold abilityTarget
  dsimp only
  have h1 := ite_min_bound (r.ability = "power_burst" ∧ rp < 0.25)
    (mul_nonneg hts (by norm_num)) h11 h0 htB
    (show (0:ℚ) ≤ 1.15 by norm_num)
  have h2 := ite_min_bound (r.ability = "reflex_start" ∧ gt < 1.5)
    hts hB h1.1 h1.2 (show (0:ℚ) ≤ 1.2 by norm_num)
  have h3 := ite_min_bound (r.ability = "adrenaline_surge" ∧ 0.6 < rp)
    (mul_nonneg hts hbm) hbmB h2.1 h2.2 hbm
  exact ite_min_bound (r.ability = "energy_conversion" ∧ st < 0.3 * r.stamina_max)
    (mul_nonneg hts (by norm_num)) h105 h3.1 h3.2
    (show (0:ℚ) ≤ 1.1 by norm_num)

lemma drainedStamina_bounds (r : Runner) (st dt : ℚ) (h : 0 ≤ r.stamina_max) :
    0 ≤ drainedStamina r st dt ∧ drainedStamina r st dt ≤ r.stamina_max := by
  unfold drainedStamina
  dsimp only
  exact ⟨le_max_left _ _, max_le h (min_le_right _ _)⟩

/-- Nonnegativity through the optional structural-stability floor. -/
lemma ite_max_nonneg {c : Prop} [Decidable c] {s e : ℚ} (h : 0 ≤ e) :
    0 ≤ (if c then max s e else e) := by
  split_ifs
  · exact le_trans h (le_max_right _ _)
  · exact h

/-- Upper bound through the optional structural-stability floor. -/
lemma ite_max_le {c : Prop} [Decidable c] {s e B : ℚ} (hs : s ≤ B)
    (he : e ≤ B) : (if c then max s e else e) ≤ B := by
  split_ifs
  · exact max_le hs he
  · exact he

lemma effectiveTarget_bounds (r : Runner) (tgt st : ℚ) {B : ℚ}
    (hts : 0 ≤ r.top_speed) (hff : 0 ≤ r.fatigue_factor)
    (hst : st ≤ r.stamina_max)
    (h0 : 0 ≤ tgt) (htB : tgt ≤ B) (hB : r.top_speed * (0.9 * 0.85) ≤ B)
    (hB0 : 0 ≤ B) :
    0 ≤ effectiveTarget r tgt st ∧ effectiveTarget r tgt st ≤ B := by
  unfold effectiveTarget
  dsimp only
  have hsf : (if 0 < r.stamina_max then st / r.stamina_max else 0) ≤ 1 := by
    split_ifs with h
    · exact div_le_one_of_le₀ hst (le_of_lt h)
    · norm_num
  have hfp2 : ∀ sfr : ℚ, sfr ≤ 1 →
      0 ≤ (if r.ability = "fatigue_shield" then
        (1 - sfr) * r.fatigue_factor * 0.4
      else (1 - sfr) * r.fatigue_factor) := by
    intro sfr h1
    have hfp : 0 ≤ (1 - sfr) * r.fatigue_factor :=
      mul_nonneg (by linarith) hff
    split_ifs with h
    · exact mul_nonneg hfp (by norm_num)
    · exact hfp
  have key : ∀ fp2 : ℚ, 0 ≤ fp2 → max 0 (tgt * (1 - fp2)) ≤ B := by
    intro fp2 h2
    apply max_le hB0
    calc tgt * (1 - fp2) ≤ tgt * 1 := by
          apply mul_le_mul_of_nonneg_left _ h0
          linarith
      _ = tgt := mul_one tgt
      _ ≤ B := htB
  exact ⟨ite_max_nonneg (le_max_left _ _),
    ite_max_le (by nlinarith) (key _ (hfp2 _ hsf))⟩

lemma approachSpeed_nonneg (r : Runner) (ets dt : ℚ) :
    0 ≤ approachSpeed r ets dt := le_max_left _ _

lemma approachSpeed_le (r : Runner) (ets dt : ℚ) {B : ℚ}
    (hacc : 0 ≤ r.acceleration) (hdt : 0 ≤ dt)
    (hsp : r.speed ≤ B) (hets : ets ≤ B) (hB0 : 0 ≤ B) :
    approachSpeed r ets dt ≤ B := by
  unfold approachSpeed
  dsimp only
  apply max_le hB0
  have h1 : 0 ≤ r.acceleration * dt := mul_nonneg hacc hdt
  have h2 : 0 ≤ r.acceleration * 1.3 * dt :=
    mul_nonneg (mul_nonneg hacc (show (0:ℚ) ≤ 1.3 by norm_num)) hdt
  split_ifs
  · exact hets
  · linarith
  · exact hets
  · linarith

lemma newSpeed_bounds (r : Runner) (dt gt rp : ℚ)
    (hts : 0 ≤ r.top_speed) (hsm : 0 ≤ r.stamina_max)
    (hff : 0 ≤ r.fatigue_factor) (hbm : 1 ≤ r.burst_multiplier)
    (hacc : 0 ≤ r.acceleration) (hdt : 0 ≤ dt)
    (hsp0 : 0 ≤ r.speed) (hsp : r.speed ≤ speedBound r) :
    0 ≤ newSpeed r dt gt rp ∧ newSpeed r dt gt rp ≤ speedBound r := by
  have hbm0 : (0:ℚ) ≤ r.burst_multiplier := by linarith
  have hmax : (1.1:ℚ) ≤ max r.burst_multiplier 1.1 := le_max_right _ _
  have hmax' : r.burst_multiplier ≤ max r.burst_multiplier 1.1 := le_max_left _ _
  have hB0 : 0 ≤ speedBound r := by
    unfold speedBound
    nlinarith
  have hp := personalityTarget_bounds r rp hts
  have hpB : personalityTarget r rp ≤ speedBound r := by
    unfold speedBound
    nlinarith [hp.2]
  have ha := abilityTarget_bounds r (personalityTarget r rp) gt rp
    (abilityStamina r dt) hts hbm0 hp.1 hpB
    (by unfold speedBound; nlinarith)
    (by unfold speedBound; nlinarith)
    (by unfold speedBound; nlinarith)
    (by unfold speedBound; nlinarith)
  have hd := drainedStamina_bounds r (abilityStamina r dt) dt hsm
  have he := effectiveTarget_bounds r _ _ hts hff hd.2 ha.1 ha.2
    (by unfold speedBound; nlinarith) hB0
  refine ⟨approachSpeed_nonneg _ _ _, ?_⟩
  exact approachSpeed_le r _ dt hacc hdt hsp he.2 hB0

/-! ## Reachability infrastructure -/

lemma reach_static {rd : ℚ} {r0 r : Runner} (h : Reach rd r0 r) :
    r.acceleration = r0.acceleration ∧ r.top_speed = r0.top_speed ∧
    r.stamina_max = r0.stamina_max ∧ r.stamina_regen = r0.stamina_regen ∧
    r.burst_multiplier = r0.burst_multiplier ∧
    r.fatigue_factor = r0.fatigue_factor ∧
    r.personality = r0.personality ∧ r.ability = r0.ability := by
  induction h with
  | refl => exact ⟨rfl, rfl, rfl, rfl, rfl, rfl, rfl, rfl⟩
  | step dt gt rp hr hdt ih =>
    rw [update_acceleration, update_top_speed, update_stamina_max,
      update_stamina_regen, update_burst_multiplier, update_fatigue_factor,
      update_personality, update_ability]
    exact ih

lemma update_inv (rd : ℚ) (r : Runner) (dt gt rp : ℚ)
    (hts : 0 ≤ r.top_speed) (hsm : 0 ≤ r.stamina_max)
    (hff : 0 ≤ r.fatigue_factor) (hbm : 1 ≤ r.burst_multiplier)
    (hacc : 0 ≤ r.acceleration) (hdt : 0 ≤ dt)
    (hinv : 0 ≤ r.stamina ∧ r.stamina ≤ r.stamina_max ∧
      0 ≤ r.speed ∧ r.speed ≤ speedBound r) :
    0 ≤ (update rd r dt gt rp).stamina ∧
    (update rd r dt gt rp).stamina ≤ (update rd r dt gt rp).stamina_max ∧
    0 ≤ (update rd r dt gt rp).speed ∧
    (update rd r dt gt rp).speed ≤ speedBound (update rd r dt gt rp) := by
  have hsb : speedBound (update rd r dt gt rp) = speedBound r := by
    unfold speedBound
    rw [update_top_speed, update_burst_multiplier]
  rw [update_stamina_max, hsb]
  rcases hfin : r.finished with h | h
  · rw [update_stamina_eq _ _ _ _ _ hfin, update_speed _ _ _ _ _ hfin]
    have hd := drainedStamina_bounds r (abilityStamina r dt) dt hsm
    have hs := newSpeed_bounds r dt gt rp hts hsm hff hbm hacc hdt
      hinv.2.2.1 hinv.2.2.2
    exact ⟨hd.1, hd.2, hs.1, hs.2⟩
  · rw [update_of_finished _ _ _ _ _ hfin]
    exact hinv

lemma newSpeed_nonneg (r : Runner) (dt gt rp : ℚ) :
    0 ≤ newSpeed r dt gt rp := by
  unfold newSpeed
  exact approachSpeed_nonneg _ _ _

lemma reach_position_le {rd : ℚ} {r0 r : Runner} (hrd : 0 ≤ rd)
    (h0 : r0.position = 0) (h : Reach rd r0 r) : r.position ≤ rd := by
  induction h with
  | refl => rw [h0]; exact hrd
  | @step r' dt gt rp hr hdt ih =>
    rcases hfin : r'.finished with hf | hf
    · rw [update_position_eq _ _ _ _ _ hfin]
      split_ifs with hc
      · exact le_refl rd
      · linarith
    · rw [update_of_finished _ _ _ _ _ hfin]
      exact ih

/-! ## Claim theorems: invariants and frame conditions -/

/-- C1 (amended): with the declared constraints together with a
nonnegative acceleration, every state reachable from the initial state by
updates with positive `dt` keeps `0 ≤ stamina ≤ stamina_max` and
`0 ≤ speed ≤ top_speed * max burst_multiplier 1.1`. -/
theorem c1_stamina_speed_bounds {rd : ℚ} {r0 r : Runner}
    (hts : 0 < r0.top_speed) (hsm : 0 < r0.stamina_max)
    (hsr : 0 ≤ r0.stamina_regen) (hff : 0 ≤ r0.fatigue_factor)
    (hbm : 1 ≤ r0.burst_multiplier) (hacc : 0 ≤ r0.acceleration)
    (hsp : r0.speed = 0) (hst : r0.stamina = r0.stamina_max)
    (h : Reach rd r0 r) :
    0 ≤ r.stamina ∧ r.stamina ≤ r0.stamina_max ∧
    0 ≤ r.speed ∧ r.speed ≤ r0.top_speed * max r0.burst_multiplier 1.1 := by
  have main : 0 ≤ r.stamina ∧ r.stamina ≤ r.stamina_max ∧
      0 ≤ r.speed ∧ r.speed ≤ speedBound r := by
    clear hsr
    induction h with
    | refl =>
      have hmax : (1.1:ℚ) ≤ max r0.burst_multiplier 1.1 := le_max_right _ _
      refine ⟨?_, ?_, ?_, ?_⟩
      · rw [hst]; linarith
      · rw [hst]
      · rw [hsp]
      · rw [hsp]
        unfold speedBound
        nlinarith
    | @step r' dt gt rp hr hdt ih =>
      obtain ⟨ha, ht, hm, _, hb, hf, _, _⟩ := reach_static hr
      exact update_inv _ _ _ _ _ (by rw [ht]; exact le_of_lt hts)
        (by rw [hm]; exact le_of_lt hsm) (by rw [hf]; exact hff)
        (by rw [hb]; exact hbm) (by rw [ha]; exact hacc)
        (le_of_lt hdt) ih
  obtain ⟨_, ht, hm, _, hb, _, _, _⟩ := reach_static h
  rw [hm, speedBound, ht, hb] at main
  exact main

/-- Witness for C1: the scenario runner after one tick satisfies the
bounds. -/
theorem c1_stamina_speed_bounds_witness :
    (0:ℚ) < c2runner.top_speed ∧ (0:ℚ) < (1:ℚ) ∧
    0 ≤ (update 200 c2runner 1 0 0).stamina ∧
    (update 200 c2runner 1 0 0).stamina ≤ c2runner.stamina_max ∧
    0 ≤ (update 200 c2runner 1 0 0).speed ∧
    (update 200 c2runner 1 0 0).speed ≤
      c2runner.top_speed * max c2runner.burst_multiplier 1.1 := by
  have h := @c1_stamina_speed_bounds 200 c2runner _
    (by norm_num [c2runner, mkRunner]) (by norm_num [c2runner, mkRunner])
    (by norm_num [c2runner, mkRunner]) (by norm_num [c2runner, mkRunner])
    (by norm_num [c2runner, mkRunner]) (by norm_num [c2runner, mkRunner])
    rfl rfl (Reach.step 1 0 0 Reach.refl (by norm_num))
  exact ⟨by norm_num [c2runner, mkRunner], by norm_num,
    h.1, h.2.1, h.2.2.1, h.2.2.2⟩

/-- Counterexample to C1 as stated: all the listed constraints hold (the
acceleration, not among them, is negative) yet one update with `dt = 1`
from the initial state drives the speed far above the claimed bound. -/
theorem c1_counterexample :
    (0:ℚ) < ce1runner.top_speed ∧ (0:ℚ) < ce1runner.stamina_max ∧
    0 ≤ ce1runner.stamina_regen ∧ 0 ≤ ce1runner.fatigue_factor ∧
    1 ≤ ce1runner.burst_multiplier ∧
    ce1runner.position = 0 ∧ ce1runner.speed = 0 ∧
    ce1runner.stamina = ce1runner.stamina_max ∧ (0:ℚ) < 1 ∧
    ¬ ((update 200 ce1runner 1 0 0).speed ≤
        ce1runner.top_speed * max ce1runner.burst_multiplier 1.1) := by
  with_unfolding_all decide

/-- C4: along any run from the initial state (position 0) with positive
time steps, a further update never decreases the position. -/
theorem c4_position_monotone {rd : ℚ} {r0 r : Runner} (hrd : 0 ≤ rd)
    (h0 : r0.position = 0) (h : Reach rd r0 r) (dt gt rp : ℚ)
    (hdt : 0 < dt) :
    r.position ≤ (update rd r dt gt rp).position := by
  have hle : r.position ≤ rd := reach_position_le hrd h0 h
  rcases hfin : r.finished with hf | hf
  · rw [update_position_eq _ _ _ _ _ hfin]
    split_ifs with hc
    · exact hle
    · linarith [mul_nonneg (newSpeed_nonneg r dt gt rp) (le_of_lt hdt)]
  · rw [update_of_finished _ _ _ _ _ hfin]

/-- Witness for C4: one tick of the scenario runner. -/
theorem c4_position_monotone_witness :
    (0:ℚ) ≤ 200 ∧ c2runner.position = 0 ∧ (0:ℚ) < 1 ∧
    c2runner.position ≤ (update 200 c2runner 1 0 0).position :=
  ⟨by norm_num, rfl, by norm_num,
    c4_position_monotone (by norm_num) rfl Reach.refl 1 0 0 (by norm_num)⟩

/-- C5: once a runner is finished, an update leaves position, speed,
stamina, the finished flag and the finish time unchanged. -/
theorem c5_finished_noop (rd : ℚ) (r : Runner) (dt gt rp : ℚ)
    (h : r.finished = true) :
    (update rd r dt gt rp).position = r.position ∧
    (update rd r dt gt rp).speed = r.speed ∧
    (update rd r dt gt rp).stamina = r.stamina ∧
    (update rd r dt gt rp).finished = r.finished ∧
    (update rd r dt gt rp).finish_time = r.finish_time := by
  rw [update_of_finished _ _ _ _ _ h]
  exact ⟨rfl, rfl, rfl, rfl, rfl⟩

/-- Witness for C5: a concrete finished runner. -/
theorem c5_finished_noop_witness :
    tieRunnerA.finished = true ∧
    (update 200 tieRunnerA 1 2 3).position = tieRunnerA.position ∧
    (update 200 tieRunnerA 1 2 3).speed = tieRunnerA.speed ∧
    (update 200 tieRunnerA 1 2 3).stamina = tieRunnerA.stamina ∧
    (update 200 tieRunnerA 1 2 3).finished = tieRunnerA.finished ∧
    (update 200 tieRunnerA 1 2 3).finish_time = tieRunnerA.finish_time :=
  ⟨rfl, c5_finished_noop 200 tieRunnerA 1 2 3 rfl⟩

/-- C6: for an unfinished `deep_inhale` runner, the stamina entering the
stage-3 drain/regen/clamp is the old stamina plus `stamina_regen*3.0*dt`
exactly when `⌊position⌋ % 20 = 0` and `position > 0` at the start of the
call; the trigger depends only on the current state, so it fires on every
tick whose state satisfies it. -/
theorem c6_deep_inhale_bonus (rd : ℚ) (r : Runner) (dt gt rp : ℚ)
    (hab : r.ability = "deep_inhale") (hfin : r.finished = false) :
    (update rd r dt gt rp).stamina =
      drainedStamina r
        (r.stamina +
          (if ⌊r.position⌋ % 20 = 0 ∧ 0 < r.position then
            r.stamina_regen * 3.0 * dt
          else 0)) dt := by
  rw [update_stamina_eq _ _ _ _ _ hfin]
  unfold newStamina
  congr 1
  unfold abilityStamina
  rw [hab]
  have hheart : ¬ (("deep_inhale" : String) = "heart_engine" ∧
      r.speed < r.top_speed) := by
    rintro ⟨h, -⟩
    exact absurd h (by decide)
  rw [if_neg hheart]
  rcases le_or_lt r.position 0 with hp | hp
  · rw [if_neg (fun hc => absurd hc.2.2 (not_lt.2 hp)),
      if_neg (fun hc => absurd hc.2 (not_lt.2 hp)), add_zero]
  · have hfl : pyInt r.position = ⌊r.position⌋ := by
      unfold pyInt
      rw [if_pos (le_of_lt hp)]
    rcases em (⌊r.position⌋ % 20 = 0) with hm | hm
    · rw [if_pos ⟨rfl, by rw [hfl]; exact hm, hp⟩, if_pos ⟨hm, hp⟩]
    · rw [if_neg (fun hc => absurd (hfl ▸ hc.2.1) hm),
        if_neg (fun hc => absurd hc.1 hm), add_zero]

/-! ## Zero top speed (claim C8) -/

lemma personalityTarget_zero (r : Runner) (rp : ℚ) (h : r.top_speed = 0) :
    personalityTarget r rp = 0 := by
  unfold personalityTarget
  dsimp only
  rw [h]
  split_ifs <;> simp

lemma abilityTarget_zero (r : Runner) (tgt gt rp st : ℚ)
    (h : r.top_speed = 0) (htgt : tgt = 0) :
    abilityTarget r tgt gt rp st = 0 := by
  unfold abilityTarget
  dsimp only
  rw [h, htgt]
  split_ifs <;> simp

lemma effectiveTarget_zero (r : Runner) (tgt st : ℚ)
    (h : r.top_speed = 0) (htgt : tgt = 0) :
    effectiveTarget r tgt st = 0 := by
  unfold effectiveTarget
  dsimp only
  rw [h, htgt]
  split_ifs <;> simp

lemma approachSpeed_zero (r : Runner) (ets dt : ℚ) (hsp : r.speed = 0)
    (hets : ets = 0) (hacc : 0 ≤ r.acceleration) (hdt : 0 ≤ dt) :
    approachSpeed r ets dt = 0 := by
  unfold approachSpeed
  dsimp only
  rw [hsp, hets, if_neg (lt_irrefl 0)]
  have hx : 0 ≤ r.acceleration * 1.3 * dt :=
    mul_nonneg (mul_nonneg hacc (by norm_num)) hdt
  apply max_eq_left
  split_ifs with h1
  · exact le_refl 0
  · linarith

lemma newSpeed_zero (r : Runner) (dt gt rp : ℚ) (hts : r.top_speed = 0)
    (hsp : r.speed = 0) (hacc : 0 ≤ r.acceleration) (hdt : 0 ≤ dt) :
    newSpeed r dt gt rp = 0 := by
  unfold newSpeed
  exact approachSpeed_zero _ _ _ hsp
    (effectiveTarget_zero _ _ _ hts (abilityTarget_zero _ _ _ _ _ hts
      (personalityTarget_zero _ _ hts))) hacc hdt

/-- C8 (amended): whenever `top_speed ≤ 0` the guarded speed fraction is
computed as 0; moreover with `top_speed = 0` and nonnegative
acceleration, the speed of every reachable state is 0.  (With a strictly
negative `top_speed`, or a negative acceleration, the speed can become
positive; see the counterexample.) -/
theorem c8_zero_top_speed (rd : ℚ) (r0 : Runner) (hts : r0.top_speed = 0)
    (hacc : 0 ≤ r0.acceleration) (hsp : r0.speed = 0) :
    (∀ s : Runner, s.top_speed ≤ 0 → speedFraction s = 0) ∧
    ∀ r : Runner, Reach rd r0 r → speedFraction r = 0 ∧ r.speed = 0 := by
  have hsf : ∀ s : Runner, s.top_speed ≤ 0 → speedFraction s = 0 := by
    intro s hs
    unfold speedFraction
    rw [if_neg (not_lt.2 hs)]
  refine ⟨hsf, fun r h => ?_⟩
  have hspeed : r.speed = 0 := by
    induction h with
    | refl => exact hsp
    | @step r' dt gt rp hr hdt ih =>
      obtain ⟨ha, ht, _, _, _, _, _, _⟩ := reach_static hr
      rcases hfin : r'.finished with hf | hf
      · rw [update_speed _ _ _ _ _ hfin]
        exact newSpeed_zero _ _ _ _ (ht.trans hts) ih
          (by rw [ha]; exact hacc) (le_of_lt hdt)
      · rw [update_of_finished _ _ _ _ _ hfin]
        exact ih
  obtain ⟨_, ht, _, _, _, _, _, _⟩ := reach_static h
  exact ⟨hsf r (by rw [ht, hts]), hspeed⟩

/-- Witness for C8: the zero-top-speed runner after one tick. -/
theorem c8_zero_top_speed_witness :
    ({ c2runner with top_speed := 0 } : Runner).top_speed = 0 ∧
    speedFraction (update 200 { c2runner with top_speed := 0 } 1 0 0) = 0 ∧
    (update 200 { c2runner with top_speed := 0 } 1 0 0).speed = 0 := by
  have h := c8_zero_top_speed 200 { c2runner with top_speed := 0 }
    rfl (by norm_num [c2runner, mkRunner]) rfl
  have h2 := h.2 _ (Reach.step 1 0 0 Reach.refl (by norm_num))
  exact ⟨rfl, h2.1, h2.2⟩

/-- Counterexample to C8 as stated: with a strictly negative top speed
(and otherwise ordinary parameters) the fatigue penalty exceeds 1 once
stamina is empty, the negative target times the negative factor becomes a
positive effective target, and the speed leaves 0 on the second tick. -/
theorem c8_counterexample :
    ce8runner.top_speed ≤ 0 ∧ ce8runner.speed = 0 ∧
    ce8runner.stamina = ce8runner.stamina_max ∧ (0:ℚ) < 1 ∧
    (update 200 (update 200 ce8runner 1 0 0) 1 1 0).speed ≠ 0 := by
  with_unfolding_all decide

/-! ## Race-loop infrastructure (claims C2, C7, C10) -/

lemma raceState_succ (rd dt : ℚ) (rs : List Runner) (n : Nat) :
    raceState rd dt rs (n+1) =
      tickAll rd dt ((n:ℚ) * dt) (raceState rd dt rs n) := rfl

lemma tickAll_length (rd dt t : ℚ) (rs : List Runner) :
    (tickAll rd dt t rs).length = rs.length := List.length_map _ _

lemma raceState_length (rd dt : ℚ) (rs : List Runner) (n : Nat) :
    (raceState rd dt rs n).length = rs.length := by
  induction n with
  | zero => rfl
  | succ n ih => rw [raceState_succ, tickAll_length, ih]

lemma allFinished_iff (rs : List Runner) :
    allFinished rs = true ↔ ∀ r ∈ rs, r.finished = true := by
  unfold allFinished
  exact List.all_eq_true

lemma allFinished_tickAll (rd dt t : ℚ) (rs : List Runner)
    (h : allFinished rs = true) : allFinished (tickAll rd dt t rs) = true := by
  rw [allFinished_iff] at h ⊢
  intro r hr
  obtain ⟨s, hs, rfl⟩ := List.mem_map.1 hr
  rw [update_of_finished _ _ _ _ _ (h s hs)]
  exact h s hs

lemma allFinished_raceState_mono (rd dt : ℚ) (rs : List Runner)
    {m n : Nat} (hmn : m ≤ n) (h : allFinished (raceState rd dt rs m) = true) :
    allFinished (raceState rd dt rs n) = true := by
  induction n, hmn using Nat.le_induction with
  | base => exact h
  | succ n hmn ih => exact allFinished_tickAll _ _ _ _ ih

/-- Invariant preserved by one update: an unfinished runner has no finish
time, and any set finish time lies in `[lo, hi)` provided the tick time
does. -/
lemma update_ft_inv (rd : ℚ) (r : Runner) (dt gt rp lo hi : ℚ)
    (hgt : lo ≤ gt ∧ gt < hi)
    (h1 : r.finished = false → r.finish_time = none)
    (h2 : ∀ τ, r.finish_time = some τ → lo ≤ τ ∧ τ < hi) :
    ((update rd r dt gt rp).finished = false →
      (update rd r dt gt rp).finish_time = none) ∧
    (∀ τ, (update rd r dt gt rp).finish_time = some τ → lo ≤ τ ∧ τ < hi) := by
  rcases hfin : r.finished with hf | hf
  · have hnoop : ∀ q : Runner, q = r →
        (q.finished = false → q.finish_time = none) ∧
        (∀ τ, q.finish_time = some τ → lo ≤ τ ∧ τ < hi) := by
      rintro q rfl
      exact ⟨h1, h2⟩
    simp only [update, hfin, Bool.false_eq_true, if_false]
    split
    · constructor
      · intro hc
        exact absurd hc (by simp)
      · intro τ hτ
        rw [Option.some_inj.1 hτ.symm]
        exact hgt
    · exact ⟨fun _ => h1 hfin, h2⟩
  · rw [update_of_finished _ _ _ _ _ hfin]
    exact ⟨h1, h2⟩

/-- The fuelled loop, run from tick `j`, performs exactly the remaining
ticks up to the first tick `N` whose guard fails. -/
lemma runLoop_stops {rd dt maxT : ℚ} {rs0 : List Runner} {N : Nat}
    (hN : loopCont maxT ((N:ℚ)*dt) (raceState rd dt rs0 N) = false)
    (hlt : ∀ k, k < N →
      loopCont maxT ((k:ℚ)*dt) (raceState rd dt rs0 k) = true) :
    ∀ (n j fuel : Nat) (fs : List Frame), N - j = n → j ≤ N → n ≤ fuel →
      runLoop rd dt maxT fuel ((j:ℚ)*dt) (raceState rd dt rs0 j) fs =
        (fs.reverse ++ (List.range' j (N-j)).map
          (fun k : Nat => mkFrame ((k:ℚ)*dt) (raceState rd dt rs0 (k+1))),
         raceState rd dt rs0 N, (N:ℚ)*dt) := by
  intro n
  induction n with
  | zero =>
    intro j fuel fs hnj hj hf
    have hjN : j = N := by omega
    subst hjN
    rw [hnj, List.range'_zero, List.map_nil, List.append_nil]
    rcases fuel with _ | f
    · rfl
    · show (if loopCont maxT ((j:ℚ)*dt) (raceState rd dt rs0 j) = true
          then _ else _) = _
      rw [hN]
      simp
  | succ n ih =>
    intro j fuel fs hnj hj hf
    have hjN : j < N := by omega
    rcases fuel with _ | f
    · omega
    · show (if loopCont maxT ((j:ℚ)*dt) (raceState rd dt rs0 j) = true
          then _ else _) = _
      rw [hlt j hjN]
      simp only [if_true]
      have hstep : tickAll rd dt ((j:ℚ)*dt) (raceState rd dt rs0 j) =
          raceState rd dt rs0 (j+1) := rfl
      rw [hstep]
      have hcast : (j:ℚ)*dt + dt = ((j+1 : Nat) : ℚ) * dt := by
        push_cast
        ring
      rw [hcast, ih (j+1) f _ (by omega) (by omega) (by omega)]
      rw [show N - j = n + 1 from hnj, show N - (j+1) = n from by omega,
        List.range'_succ, List.map_cons, List.reverse_cons,
        List.append_assoc, List.singleton_append]

/-- The race run stops exactly at the first tick `N` whose guard fails,
with one frame per executed tick. -/
lemma simulateRace_stops {rd dt maxT : ℚ} {rs0 : List Runner} {N : Nat}
    (hN : loopCont maxT ((N:ℚ)*dt) (raceState rd dt rs0 N) = false)
    (hlt : ∀ k, k < N →
      loopCont maxT ((k:ℚ)*dt) (raceState rd dt rs0 k) = true)
    (hfuel : N ≤ raceFuel dt maxT) :
    simulateRace rd dt maxT rs0 =
      ((List.range' 0 N).map
        (fun k : Nat => mkFrame ((k:ℚ)*dt) (raceState rd dt rs0 (k+1))),
       raceState rd dt rs0 N, (N:ℚ)*dt) := by
  have h := runLoop_stops hN hlt N 0 (raceFuel dt maxT) []
    (by omega) (by omega) (by omega)
  rw [show ((0:ℕ):ℚ)*dt = 0 by push_cast; ring] at h
  simpa [simulateRace] using h

/-- With positive `dt` the guard fails no later than tick
`⌈maxT/dt⌉.toNat`, because by then the simulated time has reached the
cap. -/
lemma guard_fails_at_ceil {rd dt maxT : ℚ} {rs0 : List Runner}
    (hdt : 0 < dt) :
    loopCont maxT (((⌈maxT / dt⌉.toNat : ℕ):ℚ)*dt)
      (raceState rd dt rs0 ⌈maxT / dt⌉.toNat) = false := by
  unfold loopCont
  have htime : maxT ≤ ((⌈maxT / dt⌉.toNat : ℕ):ℚ) * dt := by
    rcases le_or_lt (maxT / dt) 0 with h | h
    · have : maxT ≤ 0 := by
        rw [div_nonpos_iff] at h
        rcases h with ⟨h1, h2⟩ | ⟨h1, h2⟩
        · linarith
        · exact h1
      calc maxT ≤ 0 := this
        _ ≤ _ := by positivity
    · have hc : maxT / dt ≤ (⌈maxT / dt⌉ : ℚ) := Int.le_ceil _
      have hnn : (0:ℤ) ≤ ⌈maxT / dt⌉ := by
        have := Int.ceil_nonneg (le_of_lt h)
        exact this
      have hcast : ((⌈maxT / dt⌉.toNat : ℕ):ℚ) = ((⌈maxT / dt⌉ : ℤ):ℚ) := by
        exact_mod_cast congrArg (fun z : ℤ => (z : ℚ)) (Int.toNat_of_nonneg hnn)
      rw [hcast]
      rw [div_le_iff₀ hdt] at hc
      exact hc
  simp [not_lt.2 htime]

lemma update_unfin_ft (rd : ℚ) (r : Runner) (dt gt rp : ℚ)
    (h : r.finished = false → r.finish_time = none) :
    (update rd r dt gt rp).finished = false →
      (update rd r dt gt rp).finish_time = none := by
  rcases hfin : r.finished with hf | hf
  · simp only [update, hfin, Bool.false_eq_true, if_false]
    split
    · intro hc
      exact absurd hc (by simp)
    · exact fun _ => h hfin
  · rw [update_of_finished _ _ _ _ _ hfin]
    exact h

lemma raceState_unfin_ft {rd dt : ℚ} {rs0 : List Runner}
    (hinit : ∀ r ∈ rs0, r.finished = false → r.finish_time = none) :
    ∀ n, ∀ r ∈ raceState rd dt rs0 n,
      r.finished = false → r.finish_time = none := by
  intro n
  induction n with
  | zero => exact hinit
  | succ n ih =>
    rw [raceState_succ]
    intro r hr
    obtain ⟨s, hs, rfl⟩ := List.mem_map.1 hr
    exact update_unfin_ft _ _ _ _ _ (ih s hs)

lemma tickAll_ft_inv {rd dt t maxT : ℚ} {rs : List Runner}
    (ht : 0 ≤ t ∧ t < maxT)
    (h : ∀ r ∈ rs, (r.finished = false → r.finish_time = none) ∧
      (∀ τ, r.finish_time = some τ → 0 ≤ τ ∧ τ < maxT)) :
    ∀ r ∈ tickAll rd dt t rs,
      (r.finished = false → r.finish_time = none) ∧
      (∀ τ, r.finish_time = some τ → 0 ≤ τ ∧ τ < maxT) := by
  intro r hr
  obtain ⟨s, hs, rfl⟩ := List.mem_map.1 hr
  exact update_ft_inv rd s dt t _ 0 maxT ht (h s hs).1 (h s hs).2

lemma raceState_ft_inv {rd dt maxT : ℚ} {rs0 : List Runner} {n : Nat}
    (hdt : 0 < dt)
    (hguards : ∀ k, k < n → (k:ℚ)*dt < maxT)
    (hinit : ∀ r ∈ rs0, r.finish_time = none) :
    ∀ r ∈ raceState rd dt rs0 n,
      (r.finished = false → r.finish_time = none) ∧
      (∀ τ, r.finish_time = some τ → 0 ≤ τ ∧ τ < maxT) := by
  induction n with
  | zero =>
    intro r hr
    refine ⟨fun _ => hinit r hr, fun τ hτ => ?_⟩
    rw [hinit r hr] at hτ
    exact Option.noConfusion hτ
  | succ n ih =>
    rw [raceState_succ]
    apply tickAll_ft_inv
    · constructor
      · positivity
      · exact hguards n (Nat.lt_succ_self n)
    · exact fun r hr => ih (fun k hk => hguards k (Nat.lt_succ_of_lt hk)) r hr

lemma tick_time_lt_cap {dt maxT : ℚ} (hdt : 0 < dt) {k : Nat}
    (hk : k < (⌈maxT / dt⌉).toNat) : (k:ℚ) * dt < maxT := by
  have h1 : (k:ℤ) < ⌈maxT / dt⌉ := Int.lt_toNat.1 hk
  have h2 : ((k:ℤ):ℚ) ≤ (⌈maxT / dt⌉:ℚ) - 1 := by
    have h : (k:ℤ) ≤ ⌈maxT / dt⌉ - 1 := by omega
    exact_mod_cast h
  have h3 : (⌈maxT / dt⌉:ℚ) < maxT / dt + 1 := Int.ceil_lt_add_one _
  have h4 : (k:ℚ) < maxT / dt := by
    push_cast at h2
    linarith
  rw [lt_div_iff₀ hdt] at h4
  exact h4

lemma loopCont_false_iff (maxT t : ℚ) (rs : List Runner) :
    loopCont maxT t rs = false ↔ maxT ≤ t ∨ allFinished rs = true := by
  unfold loopCont
  rcases hc : allFinished rs with h | h <;>
    simp [not_lt, decide_eq_false_iff_not, decide_eq_true_iff]

lemma loopCont_true_iff (maxT t : ℚ) (rs : List Runner) :
    loopCont maxT t rs = true ↔ t < maxT ∧ allFinished rs = false := by
  unfold loopCont
  rcases hc : allFinished rs with h | h <;>
    simp [decide_eq_true_iff]

/-- C7: with a positive time step the loop runs at most `⌈maxT/dt⌉`
ticks (one frame per tick); the loop variable advances by `dt` per tick;
the final runners are the tick-iterated states; the loop stops exactly
when the guard first fails (cap reached or all finished) having run every
earlier tick; and if nobody has finished by tick `⌈maxT/dt⌉` of the
unguarded iteration, every runner ends with no finish time and the loop
stops at the cap within one `dt`. -/
theorem c7_loop_terminates (rd dt maxT : ℚ) (rs0 : List Runner)
    (hdt : 0 < dt) :
    (simulateRace rd dt maxT rs0).1.length ≤ (⌈maxT / dt⌉).toNat ∧
    (simulateRace rd dt maxT rs0).2.2 =
      ((simulateRace rd dt maxT rs0).1.length : ℚ) * dt ∧
    (simulateRace rd dt maxT rs0).2.1 =
      raceState rd dt rs0 (simulateRace rd dt maxT rs0).1.length ∧
    (maxT ≤ (simulateRace rd dt maxT rs0).2.2 ∨
      allFinished (simulateRace rd dt maxT rs0).2.1 = true) ∧
    (∀ k, k < (simulateRace rd dt maxT rs0).1.length →
      (k:ℚ) * dt < maxT ∧ allFinished (raceState rd dt rs0 k) = false) ∧
    (0 ≤ maxT → rs0 ≠ [] →
      (∀ r ∈ rs0, r.finished = false ∧ r.finish_time = none) →
      (∀ r ∈ raceState rd dt rs0 ((⌈maxT / dt⌉).toNat),
        r.finished = false) →
      (∀ r ∈ (simulateRace rd dt maxT rs0).2.1, r.finish_time = none) ∧
      maxT ≤ (simulateRace rd dt maxT rs0).2.2 ∧
      (simulateRace rd dt maxT rs0).2.2 < maxT + dt) := by
  have hex : ∃ n : Nat,
      loopCont maxT ((n:ℚ)*dt) (raceState rd dt rs0 n) = false :=
    ⟨(⌈maxT / dt⌉).toNat, guard_fails_at_ceil hdt⟩
  have hN : loopCont maxT (((Nat.find hex):ℚ)*dt)
      (raceState rd dt rs0 (Nat.find hex)) = false := Nat.find_spec hex
  have hlt : ∀ k, k < Nat.find hex →
      loopCont maxT ((k:ℚ)*dt) (raceState rd dt rs0 k) = true := by
    intro k hk
    have h := Nat.find_min hex hk
    rcases hb : loopCont maxT ((k:ℚ)*dt) (raceState rd dt rs0 k) with hf | hf
    · exact absurd hb h
    · rfl
  have hNM : Nat.find hex ≤ (⌈maxT / dt⌉).toNat :=
    Nat.find_min' hex (guard_fails_at_ceil hdt)
  have hsim := simulateRace_stops hN hlt
    (le_trans hNM (by unfold raceFuel; omega))
  rw [hsim]
  simp only [List.length_map, List.length_range']
  refine ⟨hNM, trivial, trivial, ?_, ?_, ?_⟩
  · exact (loopCont_false_iff _ _ _).1 hN
  · intro k hk
    exact (loopCont_true_iff _ _ _).1 (hlt k hk)
  · intro hmaxT hne hinit hMunfin
    have hlen0 : rs0.length ≠ 0 := fun h => hne (List.length_eq_zero.1 h)
    have hmem : ∀ n : Nat, ∃ r, r ∈ raceState rd dt rs0 n := by
      intro n
      have hl : (raceState rd dt rs0 n).length ≠ 0 := by
        rw [raceState_length]
        exact hlen0
      rcases hcase : raceState rd dt rs0 n with _ | ⟨a, l⟩
      · rw [hcase] at hl
        simp at hl
      · exact ⟨a, List.mem_cons_self a l⟩
    have hMnotfin : allFinished
        (raceState rd dt rs0 ((⌈maxT / dt⌉).toNat)) = false := by
      obtain ⟨r, hr⟩ := hmem ((⌈maxT / dt⌉).toNat)
      rcases hb : allFinished (raceState rd dt rs0 ((⌈maxT / dt⌉).toNat))
        with hf | hf
      · rfl
      · exact absurd ((allFinished_iff _).1 hb r hr)
          (by rw [hMunfin r hr]; simp)
    have hMN : (⌈maxT / dt⌉).toNat ≤ Nat.find hex := by
      by_contra hcon
      push_neg at hcon
      have htime : ((Nat.find hex : ℕ):ℚ) * dt < maxT :=
        tick_time_lt_cap hdt hcon
      have hfin : allFinished (raceState rd dt rs0 (Nat.find hex)) = false := by
        rcases hb : allFinished (raceState rd dt rs0 (Nat.find hex))
          with hf | hf
        · rfl
        · have hmono := allFinished_raceState_mono rd dt rs0
            (le_of_lt hcon) hb
          rw [hmono] at hMnotfin
          exact Bool.noConfusion hMnotfin
      have hcontra : loopCont maxT (((Nat.find hex):ℚ)*dt)
          (raceState rd dt rs0 (Nat.find hex)) = true :=
        (loopCont_true_iff _ _ _).2 ⟨htime, hfin⟩
      rw [hN] at hcontra
      exact Bool.noConfusion hcontra
    have hNeq : Nat.find hex = (⌈maxT / dt⌉).toNat := le_antisymm hNM hMN
    refine ⟨?_, ?_, ?_⟩
    · intro r hr
      rw [hNeq] at hr
      exact raceState_unfin_ft (fun s hs _ => (hinit s hs).2) _ r hr
        (hMunfin r hr)
    · rcases (loopCont_false_iff _ _ _).1 hN with h | h
      · exact h
      · rw [hNeq] at h
        rw [h] at hMnotfin
        exact absurd hMnotfin (by simp)
    · rw [hNeq]
      rcases hcase : (⌈maxT / dt⌉).toNat with _ | m
      · push_cast
        nlinarith
      · have hm : (m:ℚ) * dt < maxT := tick_time_lt_cap hdt (by omega)
        push_cast
        nlinarith

/-! ## Evaluating the reference scenario (claim C2) -/

lemma qfp_inj {p q : ℚ} (h : qfp p = qfp q) : p = q := by
  unfold qfp at h
  rw [Prod.mk.injEq] at h
  exact Rat.ext h.1 h.2

lemma qfp_map_inj {p q : Option ℚ} (h : p.map qfp = q.map qfp) : p = q := by
  rcases p with _ | a <;> rcases q with _ | b <;> simp_all
  exact qfp_inj h

lemma eq_of_fingerprint {r s : Runner} (h : fingerprint r = fingerprint s) :
    r = s := by
  cases r
  cases s
  unfold fingerprint at h
  simp only [Prod.mk.injEq, List.cons.injEq, eq_self_iff_true, and_true] at h
  obtain ⟨⟨h1, h2, h10, h11⟩, ⟨h3, h4, h5, h6, h7, h8, h9, h12, h13, h14⟩,
    h15, h16⟩ := h
  rw [Runner.mk.injEq]
  exact ⟨h1, h2, h3, qfp_inj h4, qfp_inj h5, qfp_inj h6, qfp_inj h7,
    qfp_inj h8, qfp_inj h9, h10, h11, qfp_inj h12, qfp_inj h13,
    qfp_inj h14, h15, qfp_map_inj h16⟩

lemma singleton_eq_of_fp {xs : List Runner} {r : Runner}
    (h : xs.map fingerprint = [fingerprint r]) : xs = [r] := by
  rcases xs with _ | ⟨a, t⟩
  · exact absurd h (by simp)
  · rcases t with _ | ⟨b, t'⟩
    · rw [List.map_cons, List.map_nil] at h
      have h1 : fingerprint a = fingerprint r := by
        injection h
      rw [eq_of_fingerprint h1]
    · exact absurd h (by simp)

set_option maxRecDepth 4000

lemma c2st_0 : raceState RACE_DISTANCE DT [c2runner] 0 =
    [⟨"", "", 0, 5, 10, 100, 10, 1, 0, "calm", "", 0, 0, 100, false, none⟩] := rfl

lemma c2st_1 : raceState RACE_DISTANCE DT [c2runner] 1 =
    [⟨"", "", 0, 5, 10, 100, 10, 1, 0, "calm", "", 1/20, 1/2, 100, false, none⟩] := by
  rw [show (1:ℕ) = 0+1 from rfl, raceState_succ, c2st_0]
  exact singleton_eq_of_fp (by with_unfolding_all decide)

lemma c2st_2 : raceState RACE_DISTANCE DT [c2runner] 2 =
    [⟨"", "", 0, 5, 10, 100, 10, 1, 0, "calm", "", 3/20, 1, 100, false, none⟩] := by
  rw [show (2:ℕ) = 1+1 from rfl, raceState_succ, c2st_1]
  exact singleton_eq_of_fp (by with_unfolding_all decide)

lemma c2st_3 : raceState RACE_DISTANCE DT [c2runner] 3 =
    [⟨"", "", 0, 5, 10, 100, 10, 1, 0, "calm", "", 3/10, 3/2, 100, false, none⟩] := by
  rw [show (3:ℕ) = 2+1 from rfl, raceState_succ, c2st_2]
  exact singleton_eq_of_fp (by with_unfolding_all decide)

lemma c2st_4 : raceState RACE_DISTANCE DT [c2runner] 4 =
    [⟨"", "", 0, 5, 10, 100, 10, 1, 0, "calm", "", 1/2, 2, 100, false, none⟩] := by
  rw [show (4:ℕ) = 3+1 from rfl, raceState_succ, c2st_3]
  exact singleton_eq_of_fp (by with_unfolding_all decide)

lemma c2st_5 : raceState RACE_DISTANCE DT [c2runner] 5 =
    [⟨"", "", 0, 5, 10, 100, 10, 1, 0, "calm", "", 3/4, 5/2, 100, false, none⟩] := by
  rw [show (5:ℕ) = 4+1 from rfl, raceState_succ, c2st_4]
  exact singleton_eq_of_fp (by with_unfolding_all decide)

lemma c2st_6 : raceState RACE_DISTANCE DT [c2runner] 6 =
    [⟨"", "", 0, 5, 10, 100, 10, 1, 0, "calm", "", 21/20, 3, 100, false, none⟩] := by
  rw [show (6:ℕ) = 5+1 from rfl, raceState_succ, c2st_5]
  exact singleton_eq_of_fp (by with_unfolding_all decide)

lemma c2st_7 : raceState RACE_DISTANCE DT [c2runner] 7 =
    [⟨"", "", 0, 5, 10, 100, 10, 1, 0, "calm", "", 7/5, 7/2, 100, false, none⟩] := by
  rw [show (7:ℕ) = 6+1 from rfl, raceState_succ, c2st_6]
  exact singleton_eq_of_fp (by with_unfolding_all decide)

lemma c2st_8 : raceState RACE_DISTANCE DT [c2runner] 8 =
    [⟨"", "", 0, 5, 10, 100, 10, 1, 0, "calm", "", 9/5, 4, 100, false, none⟩] := by
  rw [show (8:ℕ) = 7+1 from rfl, raceState_succ, c2st_7]
  exact singleton_eq_of_fp (by with_unfolding_all decide)

lemma c2st_9 : raceState RACE_DISTANCE DT [c2runner] 9 =
    [⟨"", "", 0, 5, 10, 100, 10, 1, 0, "calm", "", 9/4, 9/2, 100, false, none⟩] := by
  rw [show (9:ℕ) = 8+1 from rfl, raceState_succ, c2st_8]
  exact singleton_eq_of_fp (by with_unfolding_all decide)

lemma c2st_10 : raceState RACE_DISTANCE DT [c2runner] 10 =
    [⟨"", "", 0, 5, 10, 100, 10, 1, 0, "calm", "", 11/4, 5, 100, false, none⟩] := by
  rw [show (10:ℕ) = 9+1 from rfl, raceState_succ, c2st_9]
  exact singleton_eq_of_fp (by with_unfolding_all decide)

lemma c2st_11 : raceState RACE_DISTANCE DT [c2runner] 11 =
    [⟨"", "", 0, 5, 10, 100, 10, 1, 0, "calm", "", 33/10, 11/2, 100, false, none⟩] := by
  rw [show (11:ℕ) = 10+1 from rfl, raceState_succ, c2st_10]
  exact singleton_eq_of_fp (by with_unfolding_all decide)

lemma c2st_12 : raceState RACE_DISTANCE DT [c2runner] 12 =
    [⟨"", "", 0, 5, 10, 100, 10, 1, 0, "calm", "", 39/10, 6, 100, false, none⟩] := by
  rw [show (12:ℕ) = 11+1 from rfl, raceState_succ, c2st_11]
  exact singleton_eq_of_fp (by with_unfolding_all decide)

lemma c2st_13 : raceState RACE_DISTANCE DT [c2runner] 13 =
    [⟨"", "", 0, 5, 10, 100, 10, 1, 0, "calm", "", 91/20, 13/2, 100, false, none⟩] := by
  rw [show (13:ℕ) = 12+1 from rfl, raceState_succ, c2st_12]
  exact singleton_eq_of_fp (by with_unfolding_all decide)

lemma c2st_14 : raceState RACE_DISTANCE DT [c2runner] 14 =
    [⟨"", "", 0, 5, 10, 100, 10, 1, 0, "calm", "", 21/4, 7, 100, false, none⟩] := by
  rw [show (14:ℕ) = 13+1 from rfl, raceState_succ, c2st_13]
  exact singleton_eq_of_fp (by with_unfolding_all decide)

lemma c2st_15 : raceState RACE_DISTANCE DT [c2runner] 15 =
    [⟨"", "", 0, 5, 10, 100, 10, 1, 0, "calm", "", 6, 15/2, 19969/200, false, none⟩] := by
  rw [show (15:ℕ) = 14+1 from rfl, raceState_succ, c2st_14]
  exact singleton_eq_of_fp (by with_unfolding_all decide)

lemma c2st_16 : raceState RACE_DISTANCE DT [c2runner] 16 =
    [⟨"", "", 0, 5, 10, 100, 10, 1, 0, "calm", "", 34/5, 8, 39873/400, false, none⟩] := by
  rw [show (16:ℕ) = 15+1 from rfl, raceState_succ, c2st_15]
  exact singleton_eq_of_fp (by with_unfolding_all decide)

lemma c2st_17 : raceState RACE_DISTANCE DT [c2runner] 17 =
    [⟨"", "", 0, 5, 10, 100, 10, 1, 0, "calm", "", 38/5, 8, 7961/80, false, none⟩] := by
  rw [show (17:ℕ) = 16+1 from rfl, raceState_succ, c2st_16]
  exact singleton_eq_of_fp (by with_unfolding_all decide)

lemma c2st_18 : raceState RACE_DISTANCE DT [c2runner] 18 =
    [⟨"", "", 0, 5, 10, 100, 10, 1, 0, "calm", "", 42/5, 8, 39737/400, false, none⟩] := by
  rw [show (18:ℕ) = 17+1 from rfl, raceState_succ, c2st_17]
  exact singleton_eq_of_fp (by with_unfolding_all decide)

lemma c2st_19 : raceState RACE_DISTANCE DT [c2runner] 19 =
    [⟨"", "", 0, 5, 10, 100, 10, 1, 0, "calm", "", 46/5, 8, 39669/400, false, none⟩] := by
  rw [show (19:ℕ) = 18+1 from rfl, raceState_succ, c2st_18]
  exact singleton_eq_of_fp (by with_unfolding_all decide)

lemma c2st_20 : raceState RACE_DISTANCE DT [c2runner] 20 =
    [⟨"", "", 0, 5, 10, 100, 10, 1, 0, "calm", "", 10, 8, 39601/400, false, none⟩] := by
  rw [show (20:ℕ) = 19+1 from rfl, raceState_succ, c2st_19]
  exact singleton_eq_of_fp (by with_unfolding_all decide)

lemma c2st_21 : raceState RACE_DISTANCE DT [c2runner] 21 =
    [⟨"", "", 0, 5, 10, 100, 10, 1, 0, "calm", "", 54/5, 8, 39533/400, false, none⟩] := by
  rw [show (21:ℕ) = 20+1 from rfl, raceState_succ, c2st_20]
  exact singleton_eq_of_fp (by with_unfolding_all decide)

lemma c2st_22 : raceState RACE_DISTANCE DT [c2runner] 22 =
    [⟨"", "", 0, 5, 10, 100, 10, 1, 0, "calm", "", 58/5, 8, 7893/80, false, none⟩] := by
  rw [show (22:ℕ) = 21+1 from rfl, raceState_succ, c2st_21]
  exact singleton_eq_of_fp (by with_unfolding_all decide)

lemma c2st_23 : raceState RACE_DISTANCE DT [c2runner] 23 =
    [⟨"", "", 0, 5, 10, 100, 10, 1, 0, "calm", "", 62/5, 8, 39397/400, false, none⟩] := by
  rw [show (23:ℕ) = 22+1 from rfl, raceState_succ, c2st_22]
  exact singleton_eq_of_fp (by with_unfolding_all decide)

lemma c2st_24 : raceState RACE_DISTANCE DT [c2runner] 24 =
    [⟨"", "", 0, 5, 10, 100, 10, 1, 0, "calm", "", 66/5, 8, 39329/400, false, none⟩] := by
  rw [show (24:ℕ) = 23+1 from rfl, raceState_succ, c2st_23]
  exact singleton_eq_of_fp (by with_unfolding_all decide)

lemma c2st_25 : raceState RACE_DISTANCE DT [c2runner] 25 =
    [⟨"", "", 0, 5, 10, 100, 10, 1, 0, "calm", "", 14, 8, 39261/400, false, none⟩] := by
  rw [show (25:ℕ) = 24+1 from rfl, raceState_succ, c2st_24]
  exact singleton_eq_of_fp (by with_unfolding_all decide)

lemma c2st_26 : raceState RACE_DISTANCE DT [c2runner] 26 =
    [⟨"", "", 0, 5, 10, 100, 10, 1, 0, "calm", "", 74/5, 8, 39193/400, false, none⟩] := by
  rw [show (26:ℕ) = 25+1 from rfl, raceState_succ, c2st_25]
  exact singleton_eq_of_fp (by with_unfolding_all decide)

lemma c2st_27 : raceState RACE_DISTANCE DT [c2runner] 27 =
    [⟨"", "", 0, 5, 10, 100, 10, 1, 0, "calm", "", 78/5, 8, 1565/16, false, none⟩] := by
  rw [show (27:ℕ) = 26+1 from rfl, raceState_succ, c2st_26]
  exact singleton_eq_of_fp (by with_unfolding_all decide)

lemma c2st_28 : raceState RACE_DISTANCE DT [c2runner] 28 =
    [⟨"", "", 0, 5, 10, 100, 10, 1, 0, "calm", "", 82/5, 8, 39057/400, false, none⟩] := by
  rw [show (28:ℕ) = 27+1 from rfl, raceState_succ, c2st_27]
  exact singleton_eq_of_fp (by with_unfolding_all decide)

lemma c2st_29 : raceState RACE_DISTANCE DT [c2runner] 29 =
    [⟨"", "", 0, 5, 10, 100, 10, 1, 0, "calm", "", 86/5, 8, 38989/400, false, none⟩] := by
  rw [show (29:ℕ) = 28+1 from rfl, raceState_succ, c2st_28]
  exact singleton_eq_of_fp (by with_unfolding_all decide)

lemma c2st_30 : raceState RACE_DISTANCE DT [c2runner] 30 =
    [⟨"", "", 0, 5, 10, 100, 10, 1, 0, "calm", "", 18, 8, 38921/400, false, none⟩] := by
  rw [show (30:ℕ) = 29+1 from rfl, raceState_succ, c2st_29]
  exact singleton_eq_of_fp (by with_unfolding_all decide)

lemma c2st_31 : raceState RACE_DISTANCE DT [c2runner] 31 =
    [⟨"", "", 0, 5, 10, 100, 10, 1, 0, "calm", "", 94/5, 8, 38853/400, false, none⟩] := by
  rw [show (31:ℕ) = 30+1 from rfl, raceState_succ, c2st_30]
  exact singleton_eq_of_fp (by with_unfolding_all decide)

lemma c2st_32 : raceState RACE_DISTANCE DT [c2runner] 32 =
    [⟨"", "", 0, 5, 10, 100, 10, 1, 0, "calm", "", 98/5, 8, 7757/80, false, none⟩] := by
  rw [show (32:ℕ) = 31+1 from rfl, raceState_succ, c2st_31]
  exact singleton_eq_of_fp (by with_unfolding_all decide)

lemma c2st_33 : raceState RACE_DISTANCE DT [c2runner] 33 =
    [⟨"", "", 0, 5, 10, 100, 10, 1, 0, "calm", "", 102/5, 8, 38717/400, false, none⟩] := by
  rw [show (33:ℕ) = 32+1 from rfl, raceState_succ, c2st_32]
  exact singleton_eq_of_fp (by with_unfolding_all decide)

lemma c2st_34 : raceState RACE_DISTANCE DT [c2runner] 34 =
    [⟨"", "", 0, 5, 10, 100, 10, 1, 0, "calm", "", 106/5, 8, 38649/400, false, none⟩] := by
  rw [show (34:ℕ) = 33+1 from rfl, raceState_succ, c2st_33]
  exact singleton_eq_of_fp (by with_unfolding_all decide)

lemma c2st_35 : raceState RACE_DISTANCE DT [c2runner] 35 =
    [⟨"", "", 0, 5, 10, 100, 10, 1, 0, "calm", "", 22, 8, 38581/400, false, none⟩] := by
  rw [show (35:ℕ) = 34+1 from rfl, raceState_succ, c2st_34]
  exact singleton_eq_of_fp (by with_unfolding_all decide)

lemma c2st_36 : raceState RACE_DISTANCE DT [c2runner] 36 =
    [⟨"", "", 0, 5, 10, 100, 10, 1, 0, "calm", "", 114/5, 8, 38513/400, false, none⟩] := by
  rw [show (36:ℕ) = 35+1 from rfl, raceState_succ, c2st_35]
  exact singleton_eq_of_fp (by with_unfolding_all decide)

lemma c2st_37 : raceState RACE_DISTANCE DT [c2runner] 37 =
    [⟨"", "", 0, 5, 10, 100, 10, 1, 0, "calm", "", 118/5, 8, 7689/80, false, none⟩] := by
  rw [show (37:ℕ) = 36+1 from rfl, raceState_succ, c2st_36]
  exact singleton_eq_of_fp (by with_unfolding_all decide)

lemma c2st_38 : raceState RACE_DISTANCE DT [c2runner] 38 =
    [⟨"", "", 0, 5, 10, 100, 10, 1, 0, "calm", "", 122/5, 8, 38377/400, false, none⟩] := by
  rw [show (38:ℕ) = 37+1 from rfl, raceState_succ, c2st_37]
  exact singleton_eq_of_fp (by with_unfolding_all decide)

lemma c2st_39 : raceState RACE_DISTANCE DT [c2runner] 39 =
    [⟨"", "", 0, 5, 10, 100, 10, 1, 0, "calm", "", 126/5, 8, 38309/400, false, none⟩] := by
  rw [show (39:ℕ) = 38+1 from rfl, raceState_succ, c2st_38]
  exact singleton_eq_of_fp (by with_unfolding_all decide)

lemma c2st_40 : raceState RACE_DISTANCE DT [c2runner] 40 =
    [⟨"", "", 0, 5, 10, 100, 10, 1, 0, "calm", "", 26, 8, 38241/400, false, none⟩] := by
  rw [show (40:ℕ) = 39+1 from rfl, raceState_succ, c2st_39]
  exact singleton_eq_of_fp (by with_unfolding_all decide)

lemma c2st_41 : raceState RACE_DISTANCE DT [c2runner] 41 =
    [⟨"", "", 0, 5, 10, 100, 10, 1, 0, "calm", "", 134/5, 8, 38173/400, false, none⟩] := by
  rw [show (41:ℕ) = 40+1 from rfl, raceState_succ, c2st_40]
  exact singleton_eq_of_fp (by with_unfolding_all decide)

lemma c2st_42 : raceState RACE_DISTANCE DT [c2runner] 42 =
    [⟨"", "", 0, 5, 10, 100, 10, 1, 0, "calm", "", 138/5, 8, 7621/80, false, none⟩] := by
  rw [show (42:ℕ) = 41+1 from rfl, raceState_succ, c2st_41]
  exact singleton_eq_of_fp (by with_unfolding_all decide)

lemma c2st_43 : raceState RACE_DISTANCE DT [c2runner] 43 =
    [⟨"", "", 0, 5, 10, 100, 10, 1, 0, "calm", "", 142/5, 8, 38037/400, false, none⟩] := by
  rw [show (43:ℕ) = 42+1 from rfl, raceState_succ, c2st_42]
  exact singleton_eq_of_fp (by with_unfolding_all decide)

lemma c2st_44 : raceState RACE_DISTANCE DT [c2runner] 44 =
    [⟨"", "", 0, 5, 10, 100, 10, 1, 0, "calm", "", 146/5, 8, 37969/400, false, none⟩] := by
  rw [show (44:ℕ) = 43+1 from rfl, raceState_succ, c2st_43]
  exact singleton_eq_of_fp (by with_unfolding_all decide)

lemma c2st_45 : raceState RACE_DISTANCE DT [c2runner] 45 =
    [⟨"", "", 0, 5, 10, 100, 10, 1, 0, "calm", "", 30, 8, 37901/400, false, none⟩] := by
  rw [show (45:ℕ) = 44+1 from rfl, raceState_succ, c2st_44]
  exact singleton_eq_of_fp (by with_unfolding_all decide)

lemma c2st_46 : raceState RACE_DISTANCE DT [c2runner] 46 =
    [⟨"", "", 0, 5, 10, 100, 10, 1, 0, "calm", "", 154/5, 8, 37833/400, false, none⟩] := by
  rw [show (46:ℕ) = 45+1 from rfl, raceState_succ, c2st_45]
  exact singleton_eq_of_fp (by with_unfolding_all decide)

lemma c2st_47 : raceState RACE_DISTANCE DT [c2runner] 47 =
    [⟨"", "", 0, 5, 10, 100, 10, 1, 0, "calm", "", 158/5, 8, 7553/80, false, none⟩] := by
  rw [show (47:ℕ) = 46+1 from rfl, raceState_succ, c2st_46]
  exact singleton_eq_of_fp (by with_unfolding_all decide)

lemma c2st_48 : raceState RACE_DISTANCE DT [c2runner] 48 =
    [⟨"", "", 0, 5, 10, 100, 10, 1, 0, "calm", "", 162/5, 8, 37697/400, false, none⟩] := by
  rw [show (48:ℕ) = 47+1 from rfl, raceState_succ, c2st_47]
  exact singleton_eq_of_fp (by with_unfolding_all decide)

lemma c2st_49 : raceState RACE_DISTANCE DT [c2runner] 49 =
    [⟨"", "", 0, 5, 10, 100, 10, 1, 0, "calm", "", 166/5, 8, 37629/400, false, none⟩] := by
  rw [show (49:ℕ) = 48+1 from rfl, raceState_succ, c2st_48]
  exact singleton_eq_of_fp (by with_unfolding_all decide)

lemma c2st_50 : raceState RACE_DISTANCE DT [c2runner] 50 =
    [⟨"", "", 0, 5, 10, 100, 10, 1, 0, "calm", "", 34, 8, 37561/400, false, none⟩] := by
  rw [show (50:ℕ) = 49+1 from rfl, raceState_succ, c2st_49]
  exact singleton_eq_of_fp (by with_unfolding_all decide)

lemma c2st_51 : raceState RACE_DISTANCE DT [c2runner] 51 =
    [⟨"", "", 0, 5, 10, 100, 10, 1, 0, "calm", "", 174/5, 8, 37493/400, false, none⟩] := by
  rw [show (51:ℕ) = 50+1 from rfl, raceState_succ, c2st_50]
  exact singleton_eq_of_fp (by with_unfolding_all decide)

lemma c2st_52 : raceState RACE_DISTANCE DT [c2runner] 52 =
    [⟨"", "", 0, 5, 10, 100, 10, 1, 0, "calm", "", 178/5, 8, 1497/16, false, none⟩] := by
  rw [show (52:ℕ) = 51+1 from rfl, raceState_succ, c2st_51]
  exact singleton_eq_of_fp (by with_unfolding_all decide)

lemma c2st_53 : raceState RACE_DISTANCE DT [c2runner] 53 =
    [⟨"", "", 0, 5, 10, 100, 10, 1, 0, "calm", "", 182/5, 8, 37357/400, false, none⟩] := by
  rw [show (53:ℕ) = 52+1 from rfl, raceState_succ, c2st_52]
  exact singleton_eq_of_fp (by with_unfolding_all decide)

lemma c2st_54 : raceState RACE_DISTANCE DT [c2runner] 54 =
    [⟨"", "", 0, 5, 10, 100, 10, 1, 0, "calm", "", 186/5, 8, 37289/400, false, none⟩] := by
  rw [show (54:ℕ) = 53+1 from rfl, raceState_succ, c2st_53]
  exact singleton_eq_of_fp (by with_unfolding_all decide)

lemma c2st_55 : raceState RACE_DISTANCE DT [c2runner] 55 =
    [⟨"", "", 0, 5, 10, 100, 10, 1, 0, "calm", "", 38, 8, 37221/400, false, none⟩] := by
  rw [show (55:ℕ) = 54+1 from rfl, raceState_succ, c2st_54]
  exact singleton_eq_of_fp (by with_unfolding_all decide)

lemma c2st_56 : raceState RACE_DISTANCE DT [c2runner] 56 =
    [⟨"", "", 0, 5, 10, 100, 10, 1, 0, "calm", "", 194/5, 8, 37153/400, false, none⟩] := by
  rw [show (56:ℕ) = 55+1 from rfl, raceState_succ, c2st_55]
  exact singleton_eq_of_fp (by with_unfolding_all decide)

lemma c2st_57 : raceState RACE_DISTANCE DT [c2runner] 57 =
    [⟨"", "", 0, 5, 10, 100, 10, 1, 0, "calm", "", 198/5, 8, 7417/80, false, none⟩] := by
  rw [show (57:ℕ) = 56+1 from rfl, raceState_succ, c2st_56]
  exact singleton_eq_of_fp (by with_unfolding_all decide)

lemma c2st_58 : raceState RACE_DISTANCE DT [c2runner] 58 =
    [⟨"", "", 0, 5, 10, 100, 10, 1, 0, "calm", "", 202/5, 8, 37017/400, false, none⟩] := by
  rw [show (58:ℕ) = 57+1 from rfl, raceState_succ, c2st_57]
  exact singleton_eq_of_fp (by with_unfolding_all decide)

lemma c2st_59 : raceState RACE_DISTANCE DT [c2runner] 59 =
    [⟨"", "", 0, 5, 10, 100, 10, 1, 0, "calm", "", 206/5, 8, 36949/400, false, none⟩] := by
  rw [show (59:ℕ) = 58+1 from rfl, raceState_succ, c2st_58]
  exact singleton_eq_of_fp (by with_unfolding_all decide)

lemma c2st_60 : raceState RACE_DISTANCE DT [c2runner] 60 =
    [⟨"", "", 0, 5, 10, 100, 10, 1, 0, "calm", "", 42, 8, 36881/400, false, none⟩] := by
  rw [show (60:ℕ) = 59+1 from rfl, raceState_succ, c2st_59]
  exact singleton_eq_of_fp (by with_unfolding_all decide)

lemma c2st_61 : raceState RACE_DISTANCE DT [c2runner] 61 =
    [⟨"", "", 0, 5, 10, 100, 10, 1, 0, "calm", "", 214/5, 8, 36813/400, false, none⟩] := by
  rw [show (61:ℕ) = 60+1 from rfl, raceState_succ, c2st_60]
  exact singleton_eq_of_fp (by with_unfolding_all decide)

lemma c2st_62 : raceState RACE_DISTANCE DT [c2runner] 62 =
    [⟨"", "", 0, 5, 10, 100, 10, 1, 0, "calm", "", 218/5, 8, 7349/80, false, none⟩] := by
  rw [show (62:ℕ) = 61+1 from rfl, raceState_succ, c2st_61]
  exact singleton_eq_of_fp (by with_unfolding_all decide)

lemma c2st_63 : raceState RACE_DISTANCE DT [c2runner] 63 =
    [⟨"", "", 0, 5, 10, 100, 10, 1, 0, "calm", "", 222/5, 8, 36677/400, false, none⟩] := by
  rw [show (63:ℕ) = 62+1 from rfl, raceState_succ, c2st_62]
  exact singleton_eq_of_fp (by with_unfolding_all decide)

lemma c2st_64 : raceState RACE_DISTANCE DT [c2runner] 64 =
    [⟨"", "", 0, 5, 10, 100, 10, 1, 0, "calm", "", 226/5, 8, 36609/400, false, none⟩] := by
  rw [show (64:ℕ) = 63+1 from rfl, raceState_succ, c2st_63]
  exact singleton_eq_of_fp (by with_unfolding_all decide)

lemma c2st_65 : raceState RACE_DISTANCE DT [c2runner] 65 =
    [⟨"", "", 0, 5, 10, 100, 10, 1, 0, "calm", "", 46, 8, 36541/400, false, none⟩] := by
  rw [show (65:ℕ) = 64+1 from rfl, raceState_succ, c2st_64]
  exact singleton_eq_of_fp (by with_unfolding_all decide)

lemma c2st_66 : raceState RACE_DISTANCE DT [c2runner] 66 =
    [⟨"", "", 0, 5, 10, 100, 10, 1, 0, "calm", "", 234/5, 8, 36473/400, false, none⟩] := by
  rw [show (66:ℕ) = 65+1 from rfl, raceState_succ, c2st_65]
  exact singleton_eq_of_fp (by with_unfolding_all decide)

lemma c2st_67 : raceState RACE_DISTANCE DT [c2runner] 67 =
    [⟨"", "", 0, 5, 10, 100, 10, 1, 0, "calm", "", 238/5, 8, 7281/80, false, none⟩] := by
  rw [show (67:ℕ) = 66+1 from rfl, raceState_succ, c2st_66]
  exact singleton_eq_of_fp (by with_unfolding_all decide)

lemma c2st_68 : raceState RACE_DISTANCE DT [c2runner] 68 =
    [⟨"", "", 0, 5, 10, 100, 10, 1, 0, "calm", "", 242/5, 8, 36337/400, false, none⟩] := by
  rw [show (68:ℕ) = 67+1 from rfl, raceState_succ, c2st_67]
  exact singleton_eq_of_fp (by with_unfolding_all decide)

lemma c2st_69 : raceState RACE_DISTANCE DT [c2runner] 69 =
    [⟨"", "", 0, 5, 10, 100, 10, 1, 0, "calm", "", 246/5, 8, 36269/400, false, none⟩] := by
  rw [show (69:ℕ) = 68+1 from rfl, raceState_succ, c2st_68]
  exact singleton_eq_of_fp (by with_unfolding_all decide)

lemma c2st_70 : raceState RACE_DISTANCE DT [c2runner] 70 =
    [⟨"", "", 0, 5, 10, 100, 10, 1, 0, "calm", "", 50, 8, 36201/400, false, none⟩] := by
  rw [show (70:ℕ) = 69+1 from rfl, raceState_succ, c2st_69]
  exact singleton_eq_of_fp (by with_unfolding_all decide)

lemma c2st_71 : raceState RACE_DISTANCE DT [c2runner] 71 =
    [⟨"", "", 0, 5, 10, 100, 10, 1, 0, "calm", "", 254/5, 8, 36133/400, false, none⟩] := by
  rw [show (71:ℕ) = 70+1 from rfl, raceState_succ, c2st_70]
  exact singleton_eq_of_fp (by with_unfolding_all decide)

lemma c2st_72 : raceState RACE_DISTANCE DT [c2runner] 72 =
    [⟨"", "", 0, 5, 10, 100, 10, 1, 0, "calm", "", 258/5, 8, 7213/80, false, none⟩] := by
  rw [show (72:ℕ) = 71+1 from rfl, raceState_succ, c2st_71]
  exact singleton_eq_of_fp (by with_unfolding_all decide)

lemma c2st_73 : raceState RACE_DISTANCE DT [c2runner] 73 =
    [⟨"", "", 0, 5, 10, 100, 10, 1, 0, "calm", "", 262/5, 8, 35997/400, false, none⟩] := by
  rw [show (73:ℕ) = 72+1 from rfl, raceState_succ, c2st_72]
  exact singleton_eq_of_fp (by with_unfolding_all decide)

lemma c2st_74 : raceState RACE_DISTANCE DT [c2runner] 74 =
    [⟨"", "", 0, 5, 10, 100, 10, 1, 0, "calm", "", 266/5, 8, 35929/400, false, none⟩] := by
  rw [show (74:ℕ) = 73+1 from rfl, raceState_succ, c2st_73]
  exact singleton_eq_of_fp (by with_unfolding_all decide)

lemma c2st_75 : raceState RACE_DISTANCE DT [c2runner] 75 =
    [⟨"", "", 0, 5, 10, 100, 10, 1, 0, "calm", "", 54, 8, 35861/400, false, none⟩] := by
  rw [show (75:ℕ) = 74+1 from rfl, raceState_succ, c2st_74]
  exact singleton_eq_of_fp (by with_unfolding_all decide)

lemma c2st_76 : raceState RACE_DISTANCE DT [c2runner] 76 =
    [⟨"", "", 0, 5, 10, 100, 10, 1, 0, "calm", "", 274/5, 8, 35793/400, false, none⟩] := by
  rw [show (76:ℕ) = 75+1 from rfl, raceState_succ, c2st_75]
  exact singleton_eq_of_fp (by with_unfolding_all decide)

lemma c2st_77 : raceState RACE_DISTANCE DT [c2runner] 77 =
    [⟨"", "", 0, 5, 10, 100, 10, 1, 0, "calm", "", 278/5, 8, 1429/16, false, none⟩] := by
  rw [show (77:ℕ) = 76+1 from rfl, raceState_succ, c2st_76]
  exact singleton_eq_of_fp (by with_unfolding_all decide)

lemma c2st_78 : raceState RACE_DISTANCE DT [c2runner] 78 =
    [⟨"", "", 0, 5, 10, 100, 10, 1, 0, "calm", "", 282/5, 8, 35657/400, false, none⟩] := by
  rw [show (78:ℕ) = 77+1 from rfl, raceState_succ, c2st_77]
  exact singleton_eq_of_fp (by with_unfolding_all decide)

lemma c2st_79 : raceState RACE_DISTANCE DT [c2runner] 79 =
    [⟨"", "", 0, 5, 10, 100, 10, 1, 0, "calm", "", 286/5, 8, 35589/400, false, none⟩] := by
  rw [show (79:ℕ) = 78+1 from rfl, raceState_succ, c2st_78]
  exact singleton_eq_of_fp (by with_unfolding_all decide)

lemma c2st_80 : raceState RACE_DISTANCE DT [c2runner] 80 =
    [⟨"", "", 0, 5, 10, 100, 10, 1, 0, "calm", "", 58, 8, 35521/400, false, none⟩] := by
  rw [show (80:ℕ) = 79+1 from rfl, raceState_succ, c2st_79]
  exact singleton_eq_of_fp (by with_unfolding_all decide)

lemma c2st_81 : raceState RACE_DISTANCE DT [c2runner] 81 =
    [⟨"", "", 0, 5, 10, 100, 10, 1, 0, "calm", "", 294/5, 8, 35453/400, false, none⟩] := by
  rw [show (81:ℕ) = 80+1 from rfl, raceState_succ, c2st_80]
  exact singleton_eq_of_fp (by with_unfolding_all decide)

lemma c2st_82 : raceState RACE_DISTANCE DT [c2runner] 82 =
    [⟨"", "", 0, 5, 10, 100, 10, 1, 0, "calm", "", 298/5, 8, 7077/80, false, none⟩] := by
  rw [show (82:ℕ) = 81+1 from rfl, raceState_succ, c2st_81]
  exact singleton_eq_of_fp (by with_unfolding_all decide)

lemma c2st_83 : raceState RACE_DISTANCE DT [c2runner] 83 =
    [⟨"", "", 0, 5, 10, 100, 10, 1, 0, "calm", "", 302/5, 8, 35317/400, false, none⟩] := by
  rw [show (83:ℕ) = 82+1 from rfl, raceState_succ, c2st_82]
  exact singleton_eq_of_fp (by with_unfolding_all decide)

lemma c2st_84 : raceState RACE_DISTANCE DT [c2runner] 84 =
    [⟨"", "", 0, 5, 10, 100, 10, 1, 0, "calm", "", 306/5, 8, 35249/400, false, none⟩] := by
  rw [show (84:ℕ) = 83+1 from rfl, raceState_succ, c2st_83]
  exact singleton_eq_of_fp (by with_unfolding_all decide)

lemma c2st_85 : raceState RACE_DISTANCE DT [c2runner] 85 =
    [⟨"", "", 0, 5, 10, 100, 10, 1, 0, "calm", "", 62, 8, 35181/400, false, none⟩] := by
  rw [show (85:ℕ) = 84+1 from rfl, raceState_succ, c2st_84]
  exact singleton_eq_of_fp (by with_unfolding_all decide)

lemma c2st_86 : raceState RACE_DISTANCE DT [c2runner] 86 =
    [⟨"", "", 0, 5, 10, 100, 10, 1, 0, "calm", "", 314/5, 8, 35113/400, false, none⟩] := by
  rw [show (86:ℕ) = 85+1 from rfl, raceState_succ, c2st_85]
  exact singleton_eq_of_fp (by with_unfolding_all decide)

lemma c2st_87 : raceState RACE_DISTANCE DT [c2runner] 87 =
    [⟨"", "", 0, 5, 10, 100, 10, 1, 0, "calm", "", 318/5, 8, 7009/80, false, none⟩] := by
  rw [show (87:ℕ) = 86+1 from rfl, raceState_succ, c2st_86]
  exact singleton_eq_of_fp (by with_unfolding_all decide)

lemma c2st_88 : raceState RACE_DISTANCE DT [c2runner] 88 =
    [⟨"", "", 0, 5, 10, 100, 10, 1, 0, "calm", "", 322/5, 8, 34977/400, false, none⟩] := by
  rw [show (88:ℕ) = 87+1 from rfl, raceState_succ, c2st_87]
  exact singleton_eq_of_fp (by with_unfolding_all decide)

lemma c2st_89 : raceState RACE_DISTANCE DT [c2runner] 89 =
    [⟨"", "", 0, 5, 10, 100, 10, 1, 0, "calm", "", 326/5, 8, 34909/400, false, none⟩] := by
  rw [show (89:ℕ) = 88+1 from rfl, raceState_succ, c2st_88]
  exact singleton_eq_of_fp (by with_unfolding_all decide)

lemma c2st_90 : raceState RACE_DISTANCE DT [c2runner] 90 =
    [⟨"", "", 0, 5, 10, 100, 10, 1, 0, "calm", "", 66, 8, 34841/400, false, none⟩] := by
  rw [show (90:ℕ) = 89+1 from rfl, raceState_succ, c2st_89]
  exact singleton_eq_of_fp (by with_unfolding_all decide)

lemma c2st_91 : raceState RACE_DISTANCE DT [c2runner] 91 =
    [⟨"", "", 0, 5, 10, 100, 10, 1, 0, "calm", "", 334/5, 8, 34773/400, false, none⟩] := by
  rw [show (91:ℕ) = 90+1 from rfl, raceState_succ, c2st_90]
  exact singleton_eq_of_fp (by with_unfolding_all decide)

lemma c2st_92 : raceState RACE_DISTANCE DT [c2runner] 92 =
    [⟨"", "", 0, 5, 10, 100, 10, 1, 0, "calm", "", 338/5, 8, 6941/80, false, none⟩] := by
  rw [show (92:ℕ) = 91+1 from rfl, raceState_succ, c2st_91]
  exact singleton_eq_of_fp (by with_unfolding_all decide)

lemma c2st_93 : raceState RACE_DISTANCE DT [c2runner] 93 =
    [⟨"", "", 0, 5, 10, 100, 10, 1, 0, "calm", "", 342/5, 8, 34637/400, false, none⟩] := by
  rw [show (93:ℕ) = 92+1 from rfl, raceState_succ, c2st_92]
  exact singleton_eq_of_fp (by with_unfolding_all decide)

lemma c2st_94 : raceState RACE_DISTANCE DT [c2runner] 94 =
    [⟨"", "", 0, 5, 10, 100, 10, 1, 0, "calm", "", 346/5, 8, 34569/400, false, none⟩] := by
  rw [show (94:ℕ) = 93+1 from rfl, raceState_succ, c2st_93]
  exact singleton_eq_of_fp (by with_unfolding_all decide)

lemma c2st_95 : raceState RACE_DISTANCE DT [c2runner] 95 =
    [⟨"", "", 0, 5, 10, 100, 10, 1, 0, "calm", "", 70, 8, 34501/400, false, none⟩] := by
  rw [show (95:ℕ) = 94+1 from rfl, raceState_succ, c2st_94]
  exact singleton_eq_of_fp (by with_unfolding_all decide)

lemma c2st_96 : raceState RACE_DISTANCE DT [c2runner] 96 =
    [⟨"", "", 0, 5, 10, 100, 10, 1, 0, "calm", "", 354/5, 8, 34433/400, false, none⟩] := by
  rw [show (96:ℕ) = 95+1 from rfl, raceState_succ, c2st_95]
  exact singleton_eq_of_fp (by with_unfolding_all decide)

lemma c2st_97 : raceState RACE_DISTANCE DT [c2runner] 97 =
    [⟨"", "", 0, 5, 10, 100, 10, 1, 0, "calm", "", 358/5, 8, 6873/80, false, none⟩] := by
  rw [show (97:ℕ) = 96+1 from rfl, raceState_succ, c2st_96]
  exact singleton_eq_of_fp (by with_unfolding_all decide)

lemma c2st_98 : raceState RACE_DISTANCE DT [c2runner] 98 =
    [⟨"", "", 0, 5, 10, 100, 10, 1, 0, "calm", "", 362/5, 8, 34297/400, false, none⟩] := by
  rw [show (98:ℕ) = 97+1 from rfl, raceState_succ, c2st_97]
  exact singleton_eq_of_fp (by with_unfolding_all decide)

lemma c2st_99 : raceState RACE_DISTANCE DT [c2runner] 99 =
    [⟨"", "", 0, 5, 10, 100, 10, 1, 0, "calm", "", 366/5, 8, 34229/400, false, none⟩] := by
  rw [show (99:ℕ) = 98+1 from rfl, raceState_succ, c2st_98]
  exact singleton_eq_of_fp (by with_unfolding_all decide)

lemma c2st_100 : raceState RACE_DISTANCE DT [c2runner] 100 =
    [⟨"", "", 0, 5, 10, 100, 10, 1, 0, "calm", "", 74, 8, 34161/400, false, none⟩] := by
  rw [show (100:ℕ) = 99+1 from rfl, raceState_succ, c2st_99]
  exact singleton_eq_of_fp (by with_unfolding_all decide)

lemma c2st_101 : raceState RACE_DISTANCE DT [c2runner] 101 =
    [⟨"", "", 0, 5, 10, 100, 10, 1, 0, "calm", "", 374/5, 8, 34093/400, false, none⟩] := by
  rw [show (101:ℕ) = 100+1 from rfl, raceState_succ, c2st_100]
  exact singleton_eq_of_fp (by with_unfolding_all decide)

lemma c2st_102 : raceState RACE_DISTANCE DT [c2runner] 102 =
    [⟨"", "", 0, 5, 10, 100, 10, 1, 0, "calm", "", 378/5, 8, 1361/16, false, none⟩] := by
  rw [show (102:ℕ) = 101+1 from rfl, raceState_succ, c2st_101]
  exact singleton_eq_of_fp (by with_unfolding_all decide)

lemma c2st_103 : raceState RACE_DISTANCE DT [c2runner] 103 =
    [⟨"", "", 0, 5, 10, 100, 10, 1, 0, "calm", "", 382/5, 8, 33957/400, false, none⟩] := by
  rw [show (103:ℕ) = 102+1 from rfl, raceState_succ, c2st_102]
  exact singleton_eq_of_fp (by with_unfolding_all decide)

lemma c2st_104 : raceState RACE_DISTANCE DT [c2runner] 104 =
    [⟨"", "", 0, 5, 10, 100, 10, 1, 0, "calm", "", 386/5, 8, 33889/400, false, none⟩] := by
  rw [show (104:ℕ) = 103+1 from rfl, raceState_succ, c2st_103]
  exact singleton_eq_of_fp (by with_unfolding_all decide)

lemma c2st_105 : raceState RACE_DISTANCE DT [c2runner] 105 =
    [⟨"", "", 0, 5, 10, 100, 10, 1, 0, "calm", "", 78, 8, 33821/400, false, none⟩] := by
  rw [show (105:ℕ) = 104+1 from rfl, raceState_succ, c2st_104]
  exact singleton_eq_of_fp (by with_unfolding_all decide)

lemma c2st_106 : raceState RACE_DISTANCE DT [c2runner] 106 =
    [⟨"", "", 0, 5, 10, 100, 10, 1, 0, "calm", "", 394/5, 8, 33753/400, false, none⟩] := by
  rw [show (106:ℕ) = 105+1 from rfl, raceState_succ, c2st_105]
  exact singleton_eq_of_fp (by with_unfolding_all decide)

lemma c2st_107 : raceState RACE_DISTANCE DT [c2runner] 107 =
    [⟨"", "", 0, 5, 10, 100, 10, 1, 0, "calm", "", 398/5, 8, 6737/80, false, none⟩] := by
  rw [show (107:ℕ) = 106+1 from rfl, raceState_succ, c2st_106]
  exact singleton_eq_of_fp (by with_unfolding_all decide)

lemma c2st_108 : raceState RACE_DISTANCE DT [c2runner] 108 =
    [⟨"", "", 0, 5, 10, 100, 10, 1, 0, "calm", "", 402/5, 8, 33617/400, false, none⟩] := by
  rw [show (108:ℕ) = 107+1 from rfl, raceState_succ, c2st_107]
  exact singleton_eq_of_fp (by with_unfolding_all decide)

lemma c2st_109 : raceState RACE_DISTANCE DT [c2runner] 109 =
    [⟨"", "", 0, 5, 10, 100, 10, 1, 0, "calm", "", 406/5, 8, 33549/400, false, none⟩] := by
  rw [show (109:ℕ) = 108+1 from rfl, raceState_succ, c2st_108]
  exact singleton_eq_of_fp (by with_unfolding_all decide)

lemma c2st_110 : raceState RACE_DISTANCE DT [c2runner] 110 =
    [⟨"", "", 0, 5, 10, 100, 10, 1, 0, "calm", "", 82, 8, 33481/400, false, none⟩] := by
  rw [show (110:ℕ) = 109+1 from rfl, raceState_succ, c2st_109]
  exact singleton_eq_of_fp (by with_unfolding_all decide)

lemma c2st_111 : raceState RACE_DISTANCE DT [c2runner] 111 =
    [⟨"", "", 0, 5, 10, 100, 10, 1, 0, "calm", "", 414/5, 8, 33413/400, false, none⟩] := by
  rw [show (111:ℕ) = 110+1 from rfl, raceState_succ, c2st_110]
  exact singleton_eq_of_fp (by with_unfolding_all decide)

lemma c2st_112 : raceState RACE_DISTANCE DT [c2runner] 112 =
    [⟨"", "", 0, 5, 10, 100, 10, 1, 0, "calm", "", 418/5, 8, 6669/80, false, none⟩] := by
  rw [show (112:ℕ) = 111+1 from rfl, raceState_succ, c2st_111]
  exact singleton_eq_of_fp (by with_unfolding_all decide)

lemma c2st_113 : raceState RACE_DISTANCE DT [c2runner] 113 =
    [⟨"", "", 0, 5, 10, 100, 10, 1, 0, "calm", "", 422/5, 8, 33277/400, false, none⟩] := by
  rw [show (113:ℕ) = 112+1 from rfl, raceState_succ, c2st_112]
  exact singleton_eq_of_fp (by with_unfolding_all decide)

lemma c2st_114 : raceState RACE_DISTANCE DT [c2runner] 114 =
    [⟨"", "", 0, 5, 10, 100, 10, 1, 0, "calm", "", 426/5, 8, 33209/400, false, none⟩] := by
  rw [show (114:ℕ) = 113+1 from rfl, raceState_succ, c2st_113]
  exact singleton_eq_of_fp (by with_unfolding_all decide)

lemma c2st_115 : raceState RACE_DISTANCE DT [c2runner] 115 =
    [⟨"", "", 0, 5, 10, 100, 10, 1, 0, "calm", "", 86, 8, 33141/400, false, none⟩] := by
  rw [show (115:ℕ) = 114+1 from rfl, raceState_succ, c2st_114]
  exact singleton_eq_of_fp (by with_unfolding_all decide)

lemma c2st_116 : raceState RACE_DISTANCE DT [c2runner] 116 =
    [⟨"", "", 0, 5, 10, 100, 10, 1, 0, "calm", "", 434/5, 8, 33073/400, false, none⟩] := by
  rw [show (116:ℕ) = 115+1 from rfl, raceState_succ, c2st_115]
  exact singleton_eq_of_fp (by with_unfolding_all decide)

lemma c2st_117 : raceState RACE_DISTANCE DT [c2runner] 117 =
    [⟨"", "", 0, 5, 10, 100, 10, 1, 0, "calm", "", 438/5, 8, 6601/80, false, none⟩] := by
  rw [show (117:ℕ) = 116+1 from rfl, raceState_succ, c2st_116]
  exact singleton_eq_of_fp (by with_unfolding_all decide)

lemma c2st_118 : raceState RACE_DISTANCE DT [c2runner] 118 =
    [⟨"", "", 0, 5, 10, 100, 10, 1, 0, "calm", "", 442/5, 8, 32937/400, false, none⟩] := by
  rw [show (118:ℕ) = 117+1 from rfl, raceState_succ, c2st_117]
  exact singleton_eq_of_fp (by with_unfolding_all decide)

lemma c2st_119 : raceState RACE_DISTANCE DT [c2runner] 119 =
    [⟨"", "", 0, 5, 10, 100, 10, 1, 0, "calm", "", 446/5, 8, 32869/400, false, none⟩] := by
  rw [show (119:ℕ) = 118+1 from rfl, raceState_succ, c2st_118]
  exact singleton_eq_of_fp (by with_unfolding_all decide)

lemma c2st_120 : raceState RACE_DISTANCE DT [c2runner] 120 =
    [⟨"", "", 0, 5, 10, 100, 10, 1, 0, "calm", "", 90, 8, 32801/400, false, none⟩] := by
  rw [show (120:ℕ) = 119+1 from rfl, raceState_succ, c2st_119]
  exact singleton_eq_of_fp (by with_unfolding_all decide)

lemma c2st_121 : raceState RACE_DISTANCE DT [c2runner] 121 =
    [⟨"", "", 0, 5, 10, 100, 10, 1, 0, "calm", "", 454/5, 8, 32733/400, false, none⟩] := by
  rw [show (121:ℕ) = 120+1 from rfl, raceState_succ, c2st_120]
  exact singleton_eq_of_fp (by with_unfolding_all decide)

lemma c2st_122 : raceState RACE_DISTANCE DT [c2runner] 122 =
    [⟨"", "", 0, 5, 10, 100, 10, 1, 0, "calm", "", 458/5, 8, 6533/80, false, none⟩] := by
  rw [show (122:ℕ) = 121+1 from rfl, raceState_succ, c2st_121]
  exact singleton_eq_of_fp (by with_unfolding_all decide)

lemma c2st_123 : raceState RACE_DISTANCE DT [c2runner] 123 =
    [⟨"", "", 0, 5, 10, 100, 10, 1, 0, "calm", "", 462/5, 8, 32597/400, false, none⟩] := by
  rw [show (123:ℕ) = 122+1 from rfl, raceState_succ, c2st_122]
  exact singleton_eq_of_fp (by with_unfolding_all decide)

lemma c2st_124 : raceState RACE_DISTANCE DT [c2runner] 124 =
    [⟨"", "", 0, 5, 10, 100, 10, 1, 0, "calm", "", 466/5, 8, 32529/400, false, none⟩] := by
  rw [show (124:ℕ) = 123+1 from rfl, raceState_succ, c2st_123]
  exact singleton_eq_of_fp (by with_unfolding_all decide)

lemma c2st_125 : raceState RACE_DISTANCE DT [c2runner] 125 =
    [⟨"", "", 0, 5, 10, 100, 10, 1, 0, "calm", "", 94, 8, 32461/400, false, none⟩] := by
  rw [show (125:ℕ) = 124+1 from rfl, raceState_succ, c2st_124]
  exact singleton_eq_of_fp (by with_unfolding_all decide)

lemma c2st_126 : raceState RACE_DISTANCE DT [c2runner] 126 =
    [⟨"", "", 0, 5, 10, 100, 10, 1, 0, "calm", "", 474/5, 8, 32393/400, false, none⟩] := by
  rw [show (126:ℕ) = 125+1 from rfl, raceState_succ, c2st_125]
  exact singleton_eq_of_fp (by with_unfolding_all decide)

lemma c2st_127 : raceState RACE_DISTANCE DT [c2runner] 127 =
    [⟨"", "", 0, 5, 10, 100, 10, 1, 0, "calm", "", 478/5, 8, 1293/16, false, none⟩] := by
  rw [show (127:ℕ) = 126+1 from rfl, raceState_succ, c2st_126]
  exact singleton_eq_of_fp (by with_unfolding_all decide)

lemma c2st_128 : raceState RACE_DISTANCE DT [c2runner] 128 =
    [⟨"", "", 0, 5, 10, 100, 10, 1, 0, "calm", "", 482/5, 8, 32257/400, false, none⟩] := by
  rw [show (128:ℕ) = 127+1 from rfl, raceState_succ, c2st_127]
  exact singleton_eq_of_fp (by with_unfolding_all decide)

lemma c2st_129 : raceState RACE_DISTANCE DT [c2runner] 129 =
    [⟨"", "", 0, 5, 10, 100, 10, 1, 0, "calm", "", 486/5, 8, 32189/400, false, none⟩] := by
  rw [show (129:ℕ) = 128+1 from rfl, raceState_succ, c2st_128]
  exact singleton_eq_of_fp (by with_unfolding_all decide)

lemma c2st_130 : raceState RACE_DISTANCE DT [c2runner] 130 =
    [⟨"", "", 0, 5, 10, 100, 10, 1, 0, "calm", "", 98, 8, 32121/400, false, none⟩] := by
  rw [show (130:ℕ) = 129+1 from rfl, raceState_succ, c2st_129]
  exact singleton_eq_of_fp (by with_unfolding_all decide)

lemma c2st_131 : raceState RACE_DISTANCE DT [c2runner] 131 =
    [⟨"", "", 0, 5, 10, 100, 10, 1, 0, "calm", "", 494/5, 8, 32053/400, false, none⟩] := by
  rw [show (131:ℕ) = 130+1 from rfl, raceState_succ, c2st_130]
  exact singleton_eq_of_fp (by with_unfolding_all decide)

lemma c2st_132 : raceState RACE_DISTANCE DT [c2runner] 132 =
    [⟨"", "", 0, 5, 10, 100, 10, 1, 0, "calm", "", 498/5, 8, 6397/80, false, none⟩] := by
  rw [show (132:ℕ) = 131+1 from rfl, raceState_succ, c2st_131]
  exact singleton_eq_of_fp (by with_unfolding_all decide)

lemma c2st_133 : raceState RACE_DISTANCE DT [c2runner] 133 =
    [⟨"", "", 0, 5, 10, 100, 10, 1, 0, "calm", "", 502/5, 8, 31917/400, false, none⟩] := by
  rw [show (133:ℕ) = 132+1 from rfl, raceState_succ, c2st_132]
  exact singleton_eq_of_fp (by with_unfolding_all decide)

lemma c2st_134 : raceState RACE_DISTANCE DT [c2runner] 134 =
    [⟨"", "", 0, 5, 10, 100, 10, 1, 0, "calm", "", 506/5, 8, 31849/400, false, none⟩] := by
  rw [show (134:ℕ) = 133+1 from rfl, raceState_succ, c2st_133]
  exact singleton_eq_of_fp (by with_unfolding_all decide)

lemma c2st_135 : raceState RACE_DISTANCE DT [c2runner] 135 =
    [⟨"", "", 0, 5, 10, 100, 10, 1, 0, "calm", "", 102, 8, 31781/400, false, none⟩] := by
  rw [show (135:ℕ) = 134+1 from rfl, raceState_succ, c2st_134]
  exact singleton_eq_of_fp (by with_unfolding_all decide)

lemma c2st_136 : raceState RACE_DISTANCE DT [c2runner] 136 =
    [⟨"", "", 0, 5, 10, 100, 10, 1, 0, "calm", "", 514/5, 8, 31713/400, false, none⟩] := by
  rw [show (136:ℕ) = 135+1 from rfl, raceState_succ, c2st_135]
  exact singleton_eq_of_fp (by with_unfolding_all decide)

lemma c2st_137 : raceState RACE_DISTANCE DT [c2runner] 137 =
    [⟨"", "", 0, 5, 10, 100, 10, 1, 0, "calm", "", 518/5, 8, 6329/80, false, none⟩] := by
  rw [show (137:ℕ) = 136+1 from rfl, raceState_succ, c2st_136]
  exact singleton_eq_of_fp (by with_unfolding_all decide)

lemma c2st_138 : raceState RACE_DISTANCE DT [c2runner] 138 =
    [⟨"", "", 0, 5, 10, 100, 10, 1, 0, "calm", "", 522/5, 8, 31577/400, false, none⟩] := by
  rw [show (138:ℕ) = 137+1 from rfl, raceState_succ, c2st_137]
  exact singleton_eq_of_fp (by with_unfolding_all decide)

lemma c2st_139 : raceState RACE_DISTANCE DT [c2runner] 139 =
    [⟨"", "", 0, 5, 10, 100, 10, 1, 0, "calm", "", 526/5, 8, 31509/400, false, none⟩] := by
  rw [show (139:ℕ) = 138+1 from rfl, raceState_succ, c2st_138]
  exact singleton_eq_of_fp (by with_unfolding_all decide)

lemma c2st_140 : raceState RACE_DISTANCE DT [c2runner] 140 =
    [⟨"", "", 0, 5, 10, 100, 10, 1, 0, "calm", "", 106, 8, 31441/400, false, none⟩] := by
  rw [show (140:ℕ) = 139+1 from rfl, raceState_succ, c2st_139]
  exact singleton_eq_of_fp (by with_unfolding_all decide)

lemma c2st_141 : raceState RACE_DISTANCE DT [c2runner] 141 =
    [⟨"", "", 0, 5, 10, 100, 10, 1, 0, "calm", "", 534/5, 8, 31373/400, false, none⟩] := by
  rw [show (141:ℕ) = 140+1 from rfl, raceState_succ, c2st_140]
  exact singleton_eq_of_fp (by with_unfolding_all decide)

lemma c2st_142 : raceState RACE_DISTANCE DT [c2runner] 142 =
    [⟨"", "", 0, 5, 10, 100, 10, 1, 0, "calm", "", 538/5, 8, 6261/80, false, none⟩] := by
  rw [show (142:ℕ) = 141+1 from rfl, raceState_succ, c2st_141]
  exact singleton_eq_of_fp (by with_unfolding_all decide)

lemma c2st_143 : raceState RACE_DISTANCE DT [c2runner] 143 =
    [⟨"", "", 0, 5, 10, 100, 10, 1, 0, "calm", "", 542/5, 8, 31237/400, false, none⟩] := by
  rw [show (143:ℕ) = 142+1 from rfl, raceState_succ, c2st_142]
  exact singleton_eq_of_fp (by with_unfolding_all decide)

lemma c2st_144 : raceState RACE_DISTANCE DT [c2runner] 144 =
    [⟨"", "", 0, 5, 10, 100, 10, 1, 0, "calm", "", 546/5, 8, 31169/400, false, none⟩] := by
  rw [show (144:ℕ) = 143+1 from rfl, raceState_succ, c2st_143]
  exact singleton_eq_of_fp (by with_unfolding_all decide)

lemma c2st_145 : raceState RACE_DISTANCE DT [c2runner] 145 =
    [⟨"", "", 0, 5, 10, 100, 10, 1, 0, "calm", "", 110, 8, 31101/400, false, none⟩] := by
  rw [show (145:ℕ) = 144+1 from rfl, raceState_succ, c2st_144]
  exact singleton_eq_of_fp (by with_unfolding_all decide)

lemma c2st_146 : raceState RACE_DISTANCE DT [c2runner] 146 =
    [⟨"", "", 0, 5, 10, 100, 10, 1, 0, "calm", "", 554/5, 8, 31033/400, false, none⟩] := by
  rw [show (146:ℕ) = 145+1 from rfl, raceState_succ, c2st_145]
  exact singleton_eq_of_fp (by with_unfolding_all decide)

lemma c2st_147 : raceState RACE_DISTANCE DT [c2runner] 147 =
    [⟨"", "", 0, 5, 10, 100, 10, 1, 0, "calm", "", 558/5, 8, 6193/80, false, none⟩] := by
  rw [show (147:ℕ) = 146+1 from rfl, raceState_succ, c2st_146]
  exact singleton_eq_of_fp (by with_unfolding_all decide)

lemma c2st_148 : raceState RACE_DISTANCE DT [c2runner] 148 =
    [⟨"", "", 0, 5, 10, 100, 10, 1, 0, "calm", "", 562/5, 8, 30897/400, false, none⟩] := by
  rw [show (148:ℕ) = 147+1 from rfl, raceState_succ, c2st_147]
  exact singleton_eq_of_fp (by with_unfolding_all decide)

lemma c2st_149 : raceState RACE_DISTANCE DT [c2runner] 149 =
    [⟨"", "", 0, 5, 10, 100, 10, 1, 0, "calm", "", 566/5, 8, 30829/400, false, none⟩] := by
  rw [show (149:ℕ) = 148+1 from rfl, raceState_succ, c2st_148]
  exact singleton_eq_of_fp (by with_unfolding_all decide)

lemma c2st_150 : raceState RACE_DISTANCE DT [c2runner] 150 =
    [⟨"", "", 0, 5, 10, 100, 10, 1, 0, "calm", "", 114, 8, 30761/400, false, none⟩] := by
  rw [show (150:ℕ) = 149+1 from rfl, raceState_succ, c2st_149]
  exact singleton_eq_of_fp (by with_unfolding_all decide)

lemma c2st_151 : raceState RACE_DISTANCE DT [c2runner] 151 =
    [⟨"", "", 0, 5, 10, 100, 10, 1, 0, "calm", "", 574/5, 8, 30693/400, false, none⟩] := by
  rw [show (151:ℕ) = 150+1 from rfl, raceState_succ, c2st_150]
  exact singleton_eq_of_fp (by with_unfolding_all decide)

lemma c2st_152 : raceState RACE_DISTANCE DT [c2runner] 152 =
    [⟨"", "", 0, 5, 10, 100, 10, 1, 0, "calm", "", 578/5, 8, 1225/16, false, none⟩] := by
  rw [show (152:ℕ) = 151+1 from rfl, raceState_succ, c2st_151]
  exact singleton_eq_of_fp (by with_unfolding_all decide)

lemma c2st_153 : raceState RACE_DISTANCE DT [c2runner] 153 =
    [⟨"", "", 0, 5, 10, 100, 10, 1, 0, "calm", "", 582/5, 8, 30557/400, false, none⟩] := by
  rw [show (153:ℕ) = 152+1 from rfl, raceState_succ, c2st_152]
  exact singleton_eq_of_fp (by with_unfolding_all decide)

lemma c2st_154 : raceState RACE_DISTANCE DT [c2runner] 154 =
    [⟨"", "", 0, 5, 10, 100, 10, 1, 0, "calm", "", 586/5, 8, 30489/400, false, none⟩] := by
  rw [show (154:ℕ) = 153+1 from rfl, raceState_succ, c2st_153]
  exact singleton_eq_of_fp (by with_unfolding_all decide)

lemma c2st_155 : raceState RACE_DISTANCE DT [c2runner] 155 =
    [⟨"", "", 0, 5, 10, 100, 10, 1, 0, "calm", "", 118, 8, 30421/400, false, none⟩] := by
  rw [show (155:ℕ) = 154+1 from rfl, raceState_succ, c2st_154]
  exact singleton_eq_of_fp (by with_unfolding_all decide)

lemma c2st_156 : raceState RACE_DISTANCE DT [c2runner] 156 =
    [⟨"", "", 0, 5, 10, 100, 10, 1, 0, "calm", "", 594/5, 8, 30353/400, false, none⟩] := by
  rw [show (156:ℕ) = 155+1 from rfl, raceState_succ, c2st_155]
  exact singleton_eq_of_fp (by with_unfolding_all decide)

lemma c2st_157 : raceState RACE_DISTANCE DT [c2runner] 157 =
    [⟨"", "", 0, 5, 10, 100, 10, 1, 0, "calm", "", 598/5, 8, 6057/80, false, none⟩] := by
  rw [show (157:ℕ) = 156+1 from rfl, raceState_succ, c2st_156]
  exact singleton_eq_of_fp (by with_unfolding_all decide)

lemma c2st_158 : raceState RACE_DISTANCE DT [c2runner] 158 =
    [⟨"", "", 0, 5, 10, 100, 10, 1, 0, "calm", "", 602/5, 8, 30217/400, false, none⟩] := by
  rw [show (158:ℕ) = 157+1 from rfl, raceState_succ, c2st_157]
  exact singleton_eq_of_fp (by with_unfolding_all decide)

lemma c2st_159 : raceState RACE_DISTANCE DT [c2runner] 159 =
    [⟨"", "", 0, 5, 10, 100, 10, 1, 0, "calm", "", 606/5, 8, 30149/400, false, none⟩] := by
  rw [show (159:ℕ) = 158+1 from rfl, raceState_succ, c2st_158]
  exact singleton_eq_of_fp (by with_unfolding_all decide)

lemma c2st_160 : raceState RACE_DISTANCE DT [c2runner] 160 =
    [⟨"", "", 0, 5, 10, 100, 10, 1, 0, "calm", "", 122, 8, 30081/400, false, none⟩] := by
  rw [show (160:ℕ) = 159+1 from rfl, raceState_succ, c2st_159]
  exact singleton_eq_of_fp (by with_unfolding_all decide)

lemma c2st_161 : raceState RACE_DISTANCE DT [c2runner] 161 =
    [⟨"", "", 0, 5, 10, 100, 10, 1, 0, "calm", "", 614/5, 8, 30013/400, false, none⟩] := by
  rw [show (161:ℕ) = 160+1 from rfl, raceState_succ, c2st_160]
  exact singleton_eq_of_fp (by with_unfolding_all decide)

lemma c2st_162 : raceState RACE_DISTANCE DT [c2runner] 162 =
    [⟨"", "", 0, 5, 10, 100, 10, 1, 0, "calm", "", 618/5, 8, 5989/80, false, none⟩] := by
  rw [show (162:ℕ) = 161+1 from rfl, raceState_succ, c2st_161]
  exact singleton_eq_of_fp (by with_unfolding_all decide)

lemma c2st_163 : raceState RACE_DISTANCE DT [c2runner] 163 =
    [⟨"", "", 0, 5, 10, 100, 10, 1, 0, "calm", "", 622/5, 8, 29877/400, false, none⟩] := by
  rw [show (163:ℕ) = 162+1 from rfl, raceState_succ, c2st_162]
  exact singleton_eq_of_fp (by with_unfolding_all decide)

lemma c2st_164 : raceState RACE_DISTANCE DT [c2runner] 164 =
    [⟨"", "", 0, 5, 10, 100, 10, 1, 0, "calm", "", 626/5, 8, 29809/400, false, none⟩] := by
  rw [show (164:ℕ) = 163+1 from rfl, raceState_succ, c2st_163]
  exact singleton_eq_of_fp (by with_unfolding_all decide)

lemma c2st_165 : raceState RACE_DISTANCE DT [c2runner] 165 =
    [⟨"", "", 0, 5, 10, 100, 10, 1, 0, "calm", "", 126, 8, 29741/400, false, none⟩] := by
  rw [show (165:ℕ) = 164+1 from rfl, raceState_succ, c2st_164]
  exact singleton_eq_of_fp (by with_unfolding_all decide)

lemma c2st_166 : raceState RACE_DISTANCE DT [c2runner] 166 =
    [⟨"", "", 0, 5, 10, 100, 10, 1, 0, "calm", "", 634/5, 8, 29673/400, false, none⟩] := by
  rw [show (166:ℕ) = 165+1 from rfl, raceState_succ, c2st_165]
  exact singleton_eq_of_fp (by with_unfolding_all decide)

lemma c2st_167 : raceState RACE_DISTANCE DT [c2runner] 167 =
    [⟨"", "", 0, 5, 10, 100, 10, 1, 0, "calm", "", 638/5, 8, 5921/80, false, none⟩] := by
  rw [show (167:ℕ) = 166+1 from rfl, raceState_succ, c2st_166]
  exact singleton_eq_of_fp (by with_unfolding_all decide)

lemma c2st_168 : raceState RACE_DISTANCE DT [c2runner] 168 =
    [⟨"", "", 0, 5, 10, 100, 10, 1, 0, "calm", "", 642/5, 8, 29537/400, false, none⟩] := by
  rw [show (168:ℕ) = 167+1 from rfl, raceState_succ, c2st_167]
  exact singleton_eq_of_fp (by with_unfolding_all decide)

lemma c2st_169 : raceState RACE_DISTANCE DT [c2runner] 169 =
    [⟨"", "", 0, 5, 10, 100, 10, 1, 0, "calm", "", 646/5, 8, 29469/400, false, none⟩] := by
  rw [show (169:ℕ) = 168+1 from rfl, raceState_succ, c2st_168]
  exact singleton_eq_of_fp (by with_unfolding_all decide)

lemma c2st_170 : raceState RACE_DISTANCE DT [c2runner] 170 =
    [⟨"", "", 0, 5, 10, 100, 10, 1, 0, "calm", "", 130, 8, 29401/400, false, none⟩] := by
  rw [show (170:ℕ) = 169+1 from rfl, raceState_succ, c2st_169]
  exact singleton_eq_of_fp (by with_unfolding_all decide)

lemma c2st_171 : raceState RACE_DISTANCE DT [c2runner] 171 =
    [⟨"", "", 0, 5, 10, 100, 10, 1, 0, "calm", "", 654/5, 8, 29333/400, false, none⟩] := by
  rw [show (171:ℕ) = 170+1 from rfl, raceState_succ, c2st_170]
  exact singleton_eq_of_fp (by with_unfolding_all decide)

lemma c2st_172 : raceState RACE_DISTANCE DT [c2runner] 172 =
    [⟨"", "", 0, 5, 10, 100, 10, 1, 0, "calm", "", 658/5, 8, 5853/80, false, none⟩] := by
  rw [show (172:ℕ) = 171+1 from rfl, raceState_succ, c2st_171]
  exact singleton_eq_of_fp (by with_unfolding_all decide)

lemma c2st_173 : raceState RACE_DISTANCE DT [c2runner] 173 =
    [⟨"", "", 0, 5, 10, 100, 10, 1, 0, "calm", "", 662/5, 8, 29197/400, false, none⟩] := by
  rw [show (173:ℕ) = 172+1 from rfl, raceState_succ, c2st_172]
  exact singleton_eq_of_fp (by with_unfolding_all decide)

lemma c2st_174 : raceState RACE_DISTANCE DT [c2runner] 174 =
    [⟨"", "", 0, 5, 10, 100, 10, 1, 0, "calm", "", 666/5, 8, 29129/400, false, none⟩] := by
  rw [show (174:ℕ) = 173+1 from rfl, raceState_succ, c2st_173]
  exact singleton_eq_of_fp (by with_unfolding_all decide)

lemma c2st_175 : raceState RACE_DISTANCE DT [c2runner] 175 =
    [⟨"", "", 0, 5, 10, 100, 10, 1, 0, "calm", "", 134, 8, 29061/400, false, none⟩] := by
  rw [show (175:ℕ) = 174+1 from rfl, raceState_succ, c2st_174]
  exact singleton_eq_of_fp (by with_unfolding_all decide)

lemma c2st_176 : raceState RACE_DISTANCE DT [c2runner] 176 =
    [⟨"", "", 0, 5, 10, 100, 10, 1, 0, "calm", "", 674/5, 8, 28993/400, false, none⟩] := by
  rw [show (176:ℕ) = 175+1 from rfl, raceState_succ, c2st_175]
  exact singleton_eq_of_fp (by with_unfolding_all decide)

lemma c2st_177 : raceState RACE_DISTANCE DT [c2runner] 177 =
    [⟨"", "", 0, 5, 10, 100, 10, 1, 0, "calm", "", 678/5, 8, 1157/16, false, none⟩] := by
  rw [show (177:ℕ) = 176+1 from rfl, raceState_succ, c2st_176]
  exact singleton_eq_of_fp (by with_unfolding_all decide)

lemma c2st_178 : raceState RACE_DISTANCE DT [c2runner] 178 =
    [⟨"", "", 0, 5, 10, 100, 10, 1, 0, "calm", "", 682/5, 8, 28857/400, false, none⟩] := by
  rw [show (178:ℕ) = 177+1 from rfl, raceState_succ, c2st_177]
  exact singleton_eq_of_fp (by with_unfolding_all decide)

lemma c2st_179 : raceState RACE_DISTANCE DT [c2runner] 179 =
    [⟨"", "", 0, 5, 10, 100, 10, 1, 0, "calm", "", 686/5, 8, 28789/400, false, none⟩] := by
  rw [show (179:ℕ) = 178+1 from rfl, raceState_succ, c2st_178]
  exact singleton_eq_of_fp (by with_unfolding_all decide)

lemma c2st_180 : raceState RACE_DISTANCE DT [c2runner] 180 =
    [⟨"", "", 0, 5, 10, 100, 10, 1, 0, "calm", "", 138, 8, 28721/400, false, none⟩] := by
  rw [show (180:ℕ) = 179+1 from rfl, raceState_succ, c2st_179]
  exact singleton_eq_of_fp (by with_unfolding_all decide)

lemma c2st_181 : raceState RACE_DISTANCE DT [c2runner] 181 =
    [⟨"", "", 0, 5, 10, 100, 10, 1, 0, "calm", "", 694/5, 8, 28653/400, false, none⟩] := by
  rw [show (181:ℕ) = 180+1 from rfl, raceState_succ, c2st_180]
  exact singleton_eq_of_fp (by with_unfolding_all decide)

lemma c2st_182 : raceState RACE_DISTANCE DT [c2runner] 182 =
    [⟨"", "", 0, 5, 10, 100, 10, 1, 0, "calm", "", 698/5, 8, 5717/80, false, none⟩] := by
  rw [show (182:ℕ) = 181+1 from rfl, raceState_succ, c2st_181]
  exact singleton_eq_of_fp (by with_unfolding_all decide)

lemma c2st_183 : raceState RACE_DISTANCE DT [c2runner] 183 =
    [⟨"", "", 0, 5, 10, 100, 10, 1, 0, "calm", "", 702/5, 8, 28517/400, false, none⟩] := by
  rw [show (183:ℕ) = 182+1 from rfl, raceState_succ, c2st_182]
  exact singleton_eq_of_fp (by with_unfolding_all decide)

lemma c2st_184 : raceState RACE_DISTANCE DT [c2runner] 184 =
    [⟨"", "", 0, 5, 10, 100, 10, 1, 0, "calm", "", 706/5, 8, 28449/400, false, none⟩] := by
  rw [show (184:ℕ) = 183+1 from rfl, raceState_succ, c2st_183]
  exact singleton_eq_of_fp (by with_unfolding_all decide)

lemma c2st_185 : raceState RACE_DISTANCE DT [c2runner] 185 =
    [⟨"", "", 0, 5, 10, 100, 10, 1, 0, "calm", "", 142, 8, 28381/400, false, none⟩] := by
  rw [show (185:ℕ) = 184+1 from rfl, raceState_succ, c2st_184]
  exact singleton_eq_of_fp (by with_unfolding_all decide)

lemma c2st_186 : raceState RACE_DISTANCE DT [c2runner] 186 =
    [⟨"", "", 0, 5, 10, 100, 10, 1, 0, "calm", "", 714/5, 8, 28313/400, false, none⟩] := by
  rw [show (186:ℕ) = 185+1 from rfl, raceState_succ, c2st_185]
  exact singleton_eq_of_fp (by with_unfolding_all decide)

lemma c2st_187 : raceState RACE_DISTANCE DT [c2runner] 187 =
    [⟨"", "", 0, 5, 10, 100, 10, 1, 0, "calm", "", 718/5, 8, 5649/80, false, none⟩] := by
  rw [show (187:ℕ) = 186+1 from rfl, raceState_succ, c2st_186]
  exact singleton_eq_of_fp (by with_unfolding_all decide)

lemma c2st_188 : raceState RACE_DISTANCE DT [c2runner] 188 =
    [⟨"", "", 0, 5, 10, 100, 10, 1, 0, "calm", "", 722/5, 8, 28177/400, false, none⟩] := by
  rw [show (188:ℕ) = 187+1 from rfl, raceState_succ, c2st_187]
  exact singleton_eq_of_fp (by with_unfolding_all decide)

lemma c2st_189 : raceState RACE_DISTANCE DT [c2runner] 189 =
    [⟨"", "", 0, 5, 10, 100, 10, 1, 0, "calm", "", 726/5, 8, 28109/400, false, none⟩] := by
  rw [show (189:ℕ) = 188+1 from rfl, raceState_succ, c2st_188]
  exact singleton_eq_of_fp (by with_unfolding_all decide)

lemma c2st_190 : raceState RACE_DISTANCE DT [c2runner] 190 =
    [⟨"", "", 0, 5, 10, 100, 10, 1, 0, "calm", "", 146, 8, 28041/400, false, none⟩] := by
  rw [show (190:ℕ) = 189+1 from rfl, raceState_succ, c2st_189]
  exact singleton_eq_of_fp (by with_unfolding_all decide)

lemma c2st_191 : raceState RACE_DISTANCE DT [c2runner] 191 =
    [⟨"", "", 0, 5, 10, 100, 10, 1, 0, "calm", "", 734/5, 8, 27973/400, false, none⟩] := by
  rw [show (191:ℕ) = 190+1 from rfl, raceState_succ, c2st_190]
  exact singleton_eq_of_fp (by with_unfolding_all decide)

lemma c2st_192 : raceState RACE_DISTANCE DT [c2runner] 192 =
    [⟨"", "", 0, 5, 10, 100, 10, 1, 0, "calm", "", 738/5, 8, 5581/80, false, none⟩] := by
  rw [show (192:ℕ) = 191+1 from rfl, raceState_succ, c2st_191]
  exact singleton_eq_of_fp (by with_unfolding_all decide)

lemma c2st_193 : raceState RACE_DISTANCE DT [c2runner] 193 =
    [⟨"", "", 0, 5, 10, 100, 10, 1, 0, "calm", "", 742/5, 8, 27837/400, false, none⟩] := by
  rw [show (193:ℕ) = 192+1 from rfl, raceState_succ, c2st_192]
  exact singleton_eq_of_fp (by with_unfolding_all decide)

lemma c2st_194 : raceState RACE_DISTANCE DT [c2runner] 194 =
    [⟨"", "", 0, 5, 10, 100, 10, 1, 0, "calm", "", 746/5, 8, 27769/400, false, none⟩] := by
  rw [show (194:ℕ) = 193+1 from rfl, raceState_succ, c2st_193]
  exact singleton_eq_of_fp (by with_unfolding_all decide)

lemma c2st_195 : raceState RACE_DISTANCE DT [c2runner] 195 =
    [⟨"", "", 0, 5, 10, 100, 10, 1, 0, "calm", "", 150, 8, 27701/400, false, none⟩] := by
  rw [show (195:ℕ) = 194+1 from rfl, raceState_succ, c2st_194]
  exact singleton_eq_of_fp (by with_unfolding_all decide)

lemma c2st_196 : raceState RACE_DISTANCE DT [c2runner] 196 =
    [⟨"", "", 0, 5, 10, 100, 10, 1, 0, "calm", "", 754/5, 8, 27633/400, false, none⟩] := by
  rw [show (196:ℕ) = 195+1 from rfl, raceState_succ, c2st_195]
  exact singleton_eq_of_fp (by with_unfolding_all decide)

lemma c2st_197 : raceState RACE_DISTANCE DT [c2runner] 197 =
    [⟨"", "", 0, 5, 10, 100, 10, 1, 0, "calm", "", 758/5, 8, 5513/80, false, none⟩] := by
  rw [show (197:ℕ) = 196+1 from rfl, raceState_succ, c2st_196]
  exact singleton_eq_of_fp (by with_unfolding_all decide)

lemma c2st_198 : raceState RACE_DISTANCE DT [c2runner] 198 =
    [⟨"", "", 0, 5, 10, 100, 10, 1, 0, "calm", "", 762/5, 8, 27497/400, false, none⟩] := by
  rw [show (198:ℕ) = 197+1 from rfl, raceState_succ, c2st_197]
  exact singleton_eq_of_fp (by with_unfolding_all decide)

lemma c2st_199 : raceState RACE_DISTANCE DT [c2runner] 199 =
    [⟨"", "", 0, 5, 10, 100, 10, 1, 0, "calm", "", 766/5, 8, 27429/400, false, none⟩] := by
  rw [show (199:ℕ) = 198+1 from rfl, raceState_succ, c2st_198]
  exact singleton_eq_of_fp (by with_unfolding_all decide)

lemma c2st_200 : raceState RACE_DISTANCE DT [c2runner] 200 =
    [⟨"", "", 0, 5, 10, 100, 10, 1, 0, "calm", "", 154, 8, 27361/400, false, none⟩] := by
  rw [show (200:ℕ) = 199+1 from rfl, raceState_succ, c2st_199]
  exact singleton_eq_of_fp (by with_unfolding_all decide)

lemma c2st_201 : raceState RACE_DISTANCE DT [c2runner] 201 =
    [⟨"", "", 0, 5, 10, 100, 10, 1, 0, "calm", "", 774/5, 8, 27293/400, false, none⟩] := by
  rw [show (201:ℕ) = 200+1 from rfl, raceState_succ, c2st_200]
  exact singleton_eq_of_fp (by with_unfolding_all decide)

lemma c2st_202 : raceState RACE_DISTANCE DT [c2runner] 202 =
    [⟨"", "", 0, 5, 10, 100, 10, 1, 0, "calm", "", 778/5, 8, 1089/16, false, none⟩] := by
  rw [show (202:ℕ) = 201+1 from rfl, raceState_succ, c2st_201]
  exact singleton_eq_of_fp (by with_unfolding_all decide)

lemma c2st_203 : raceState RACE_DISTANCE DT [c2runner] 203 =
    [⟨"", "", 0, 5, 10, 100, 10, 1, 0, "calm", "", 782/5, 8, 27157/400, false, none⟩] := by
  rw [show (203:ℕ) = 202+1 from rfl, raceState_succ, c2st_202]
  exact singleton_eq_of_fp (by with_unfolding_all decide)

lemma c2st_204 : raceState RACE_DISTANCE DT [c2runner] 204 =
    [⟨"", "", 0, 5, 10, 100, 10, 1, 0, "calm", "", 786/5, 8, 27089/400, false, none⟩] := by
  rw [show (204:ℕ) = 203+1 from rfl, raceState_succ, c2st_203]
  exact singleton_eq_of_fp (by with_unfolding_all decide)

lemma c2st_205 : raceState RACE_DISTANCE DT [c2runner] 205 =
    [⟨"", "", 0, 5, 10, 100, 10, 1, 0, "calm", "", 158, 8, 27021/400, false, none⟩] := by
  rw [show (205:ℕ) = 204+1 from rfl, raceState_succ, c2st_204]
  exact singleton_eq_of_fp (by with_unfolding_all decide)

lemma c2st_206 : raceState RACE_DISTANCE DT [c2runner] 206 =
    [⟨"", "", 0, 5, 10, 100, 10, 1, 0, "calm", "", 794/5, 8, 26953/400, false, none⟩] := by
  rw [show (206:ℕ) = 205+1 from rfl, raceState_succ, c2st_205]
  exact singleton_eq_of_fp (by with_unfolding_all decide)

lemma c2st_207 : raceState RACE_DISTANCE DT [c2runner] 207 =
    [⟨"", "", 0, 5, 10, 100, 10, 1, 0, "calm", "", 798/5, 8, 5377/80, false, none⟩] := by
  rw [show (207:ℕ) = 206+1 from rfl, raceState_succ, c2st_206]
  exact singleton_eq_of_fp (by with_unfolding_all decide)

lemma c2st_208 : raceState RACE_DISTANCE DT [c2runner] 208 =
    [⟨"", "", 0, 5, 10, 100, 10, 1, 0, "calm", "", 802/5, 8, 26817/400, false, none⟩] := by
  rw [show (208:ℕ) = 207+1 from rfl, raceState_succ, c2st_207]
  exact singleton_eq_of_fp (by with_unfolding_all decide)

lemma c2st_209 : raceState RACE_DISTANCE DT [c2runner] 209 =
    [⟨"", "", 0, 5, 10, 100, 10, 1, 0, "calm", "", 806/5, 8, 26749/400, false, none⟩] := by
  rw [show (209:ℕ) = 208+1 from rfl, raceState_succ, c2st_208]
  exact singleton_eq_of_fp (by with_unfolding_all decide)

lemma c2st_210 : raceState RACE_DISTANCE DT [c2runner] 210 =
    [⟨"", "", 0, 5, 10, 100, 10, 1, 0, "calm", "", 162, 8, 26681/400, false, none⟩] := by
  rw [show (210:ℕ) = 209+1 from rfl, raceState_succ, c2st_209]
  exact singleton_eq_of_fp (by with_unfolding_all decide)

lemma c2st_211 : raceState RACE_DISTANCE DT [c2runner] 211 =
    [⟨"", "", 0, 5, 10, 100, 10, 1, 0, "calm", "", 814/5, 8, 26613/400, false, none⟩] := by
  rw [show (211:ℕ) = 210+1 from rfl, raceState_succ, c2st_210]
  exact singleton_eq_of_fp (by with_unfolding_all decide)

lemma c2st_212 : raceState RACE_DISTANCE DT [c2runner] 212 =
    [⟨"", "", 0, 5, 10, 100, 10, 1, 0, "calm", "", 818/5, 8, 5309/80, false, none⟩] := by
  rw [show (212:ℕ) = 211+1 from rfl, raceState_succ, c2st_211]
  exact singleton_eq_of_fp (by with_unfolding_all decide)

lemma c2st_213 : raceState RACE_DISTANCE DT [c2runner] 213 =
    [⟨"", "", 0, 5, 10, 100, 10, 1, 0, "calm", "", 822/5, 8, 26477/400, false, none⟩] := by
  rw [show (213:ℕ) = 212+1 from rfl, raceState_succ, c2st_212]
  exact singleton_eq_of_fp (by with_unfolding_all decide)

lemma c2st_214 : raceState RACE_DISTANCE DT [c2runner] 214 =
    [⟨"", "", 0, 5, 10, 100, 10, 1, 0, "calm", "", 826/5, 8, 26409/400, false, none⟩] := by
  rw [show (214:ℕ) = 213+1 from rfl, raceState_succ, c2st_213]
  exact singleton_eq_of_fp (by with_unfolding_all decide)

lemma c2st_215 : raceState RACE_DISTANCE DT [c2runner] 215 =
    [⟨"", "", 0, 5, 10, 100, 10, 1, 0, "calm", "", 166, 8, 26341/400, false, none⟩] := by
  rw [show (215:ℕ) = 214+1 from rfl, raceState_succ, c2st_214]
  exact singleton_eq_of_fp (by with_unfolding_all decide)

lemma c2st_216 : raceState RACE_DISTANCE DT [c2runner] 216 =
    [⟨"", "", 0, 5, 10, 100, 10, 1, 0, "calm", "", 834/5, 8, 26273/400, false, none⟩] := by
  rw [show (216:ℕ) = 215+1 from rfl, raceState_succ, c2st_215]
  exact singleton_eq_of_fp (by with_unfolding_all decide)

lemma c2st_217 : raceState RACE_DISTANCE DT [c2runner] 217 =
    [⟨"", "", 0, 5, 10, 100, 10, 1, 0, "calm", "", 838/5, 8, 5241/80, false, none⟩] := by
  rw [show (217:ℕ) = 216+1 from rfl, raceState_succ, c2st_216]
  exact singleton_eq_of_fp (by with_unfolding_all decide)

lemma c2st_218 : raceState RACE_DISTANCE DT [c2runner] 218 =
    [⟨"", "", 0, 5, 10, 100, 10, 1, 0, "calm", "", 842/5, 8, 26137/400, false, none⟩] := by
  rw [show (218:ℕ) = 217+1 from rfl, raceState_succ, c2st_217]
  exact singleton_eq_of_fp (by with_unfolding_all decide)

lemma c2st_219 : raceState RACE_DISTANCE DT [c2runner] 219 =
    [⟨"", "", 0, 5, 10, 100, 10, 1, 0, "calm", "", 846/5, 8, 26069/400, false, none⟩] := by
  rw [show (219:ℕ) = 218+1 from rfl, raceState_succ, c2st_218]
  exact singleton_eq_of_fp (by with_unfolding_all decide)

lemma c2st_220 : raceState RACE_DISTANCE DT [c2runner] 220 =
    [⟨"", "", 0, 5, 10, 100, 10, 1, 0, "calm", "", 170, 8, 26001/400, false, none⟩] := by
  rw [show (220:ℕ) = 219+1 from rfl, raceState_succ, c2st_219]
  exact singleton_eq_of_fp (by with_unfolding_all decide)

lemma c2st_221 : raceState RACE_DISTANCE DT [c2runner] 221 =
    [⟨"", "", 0, 5, 10, 100, 10, 1, 0, "calm", "", 854/5, 8, 25933/400, false, none⟩] := by
  rw [show (221:ℕ) = 220+1 from rfl, raceState_succ, c2st_220]
  exact singleton_eq_of_fp (by with_unfolding_all decide)

lemma c2st_222 : raceState RACE_DISTANCE DT [c2runner] 222 =
    [⟨"", "", 0, 5, 10, 100, 10, 1, 0, "calm", "", 858/5, 8, 5173/80, false, none⟩] := by
  rw [show (222:ℕ) = 221+1 from rfl, raceState_succ, c2st_221]
  exact singleton_eq_of_fp (by with_unfolding_all decide)

lemma c2st_223 : raceState RACE_DISTANCE DT [c2runner] 223 =
    [⟨"", "", 0, 5, 10, 100, 10, 1, 0, "calm", "", 862/5, 8, 25797/400, false, none⟩] := by
  rw [show (223:ℕ) = 222+1 from rfl, raceState_succ, c2st_222]
  exact singleton_eq_of_fp (by with_unfolding_all decide)

lemma c2st_224 : raceState RACE_DISTANCE DT [c2runner] 224 =
    [⟨"", "", 0, 5, 10, 100, 10, 1, 0, "calm", "", 866/5, 8, 25729/400, false, none⟩] := by
  rw [show (224:ℕ) = 223+1 from rfl, raceState_succ, c2st_223]
  exact singleton_eq_of_fp (by with_unfolding_all decide)

lemma c2st_225 : raceState RACE_DISTANCE DT [c2runner] 225 =
    [⟨"", "", 0, 5, 10, 100, 10, 1, 0, "calm", "", 174, 8, 25661/400, false, none⟩] := by
  rw [show (225:ℕ) = 224+1 from rfl, raceState_succ, c2st_224]
  exact singleton_eq_of_fp (by with_unfolding_all decide)

lemma c2st_226 : raceState RACE_DISTANCE DT [c2runner] 226 =
    [⟨"", "", 0, 5, 10, 100, 10, 1, 0, "calm", "", 874/5, 8, 25593/400, false, none⟩] := by
  rw [show (226:ℕ) = 225+1 from rfl, raceState_succ, c2st_225]
  exact singleton_eq_of_fp (by with_unfolding_all decide)

lemma c2st_227 : raceState RACE_DISTANCE DT [c2runner] 227 =
    [⟨"", "", 0, 5, 10, 100, 10, 1, 0, "calm", "", 878/5, 8, 1021/16, false, none⟩] := by
  rw [show (227:ℕ) = 226+1 from rfl, raceState_succ, c2st_226]
  exact singleton_eq_of_fp (by with_unfolding_all decide)

lemma c2st_228 : raceState RACE_DISTANCE DT [c2runner] 228 =
    [⟨"", "", 0, 5, 10, 100, 10, 1, 0, "calm", "", 882/5, 8, 25457/400, false, none⟩] := by
  rw [show (228:ℕ) = 227+1 from rfl, raceState_succ, c2st_227]
  exact singleton_eq_of_fp (by with_unfolding_all decide)

lemma c2st_229 : raceState RACE_DISTANCE DT [c2runner] 229 =
    [⟨"", "", 0, 5, 10, 100, 10, 1, 0, "calm", "", 886/5, 8, 25389/400, false, none⟩] := by
  rw [show (229:ℕ) = 228+1 from rfl, raceState_succ, c2st_228]
  exact singleton_eq_of_fp (by with_unfolding_all decide)

lemma c2st_230 : raceState RACE_DISTANCE DT [c2runner] 230 =
    [⟨"", "", 0, 5, 10, 100, 10, 1, 0, "calm", "", 178, 8, 25321/400, false, none⟩] := by
  rw [show (230:ℕ) = 229+1 from rfl, raceState_succ, c2st_229]
  exact singleton_eq_of_fp (by with_unfolding_all decide)

lemma c2st_231 : raceState RACE_DISTANCE DT [c2runner] 231 =
    [⟨"", "", 0, 5, 10, 100, 10, 1, 0, "calm", "", 894/5, 8, 25253/400, false, none⟩] := by
  rw [show (231:ℕ) = 230+1 from rfl, raceState_succ, c2st_230]
  exact singleton_eq_of_fp (by with_unfolding_all decide)

lemma c2st_232 : raceState RACE_DISTANCE DT [c2runner] 232 =
    [⟨"", "", 0, 5, 10, 100, 10, 1, 0, "calm", "", 898/5, 8, 5037/80, false, none⟩] := by
  rw [show (232:ℕ) = 231+1 from rfl, raceState_succ, c2st_231]
  exact singleton_eq_of_fp (by with_unfolding_all decide)

lemma c2st_233 : raceState RACE_DISTANCE DT [c2runner] 233 =
    [⟨"", "", 0, 5, 10, 100, 10, 1, 0, "calm", "", 902/5, 8, 25117/400, false, none⟩] := by
  rw [show (233:ℕ) = 232+1 from rfl, raceState_succ, c2st_232]
  exact singleton_eq_of_fp (by with_unfolding_all decide)

lemma c2st_234 : raceState RACE_DISTANCE DT [c2runner] 234 =
    [⟨"", "", 0, 5, 10, 100, 10, 1, 0, "calm", "", 906/5, 8, 25049/400, false, none⟩] := by
  rw [show (234:ℕ) = 233+1 from rfl, raceState_succ, c2st_233]
  exact singleton_eq_of_fp (by with_unfolding_all decide)

lemma c2st_235 : raceState RACE_DISTANCE DT [c2runner] 235 =
    [⟨"", "", 0, 5, 10, 100, 10, 1, 0, "calm", "", 182, 8, 24981/400, false, none⟩] := by
  rw [show (235:ℕ) = 234+1 from rfl, raceState_succ, c2st_234]
  exact singleton_eq_of_fp (by with_unfolding_all decide)

lemma c2st_236 : raceState RACE_DISTANCE DT [c2runner] 236 =
    [⟨"", "", 0, 5, 10, 100, 10, 1, 0, "calm", "", 914/5, 8, 24913/400, false, none⟩] := by
  rw [show (236:ℕ) = 235+1 from rfl, raceState_succ, c2st_235]
  exact singleton_eq_of_fp (by with_unfolding_all decide)

lemma c2st_237 : raceState RACE_DISTANCE DT [c2runner] 237 =
    [⟨"", "", 0, 5, 10, 100, 10, 1, 0, "calm", "", 918/5, 8, 4969/80, false, none⟩] := by
  rw [show (237:ℕ) = 236+1 from rfl, raceState_succ, c2st_236]
  exact singleton_eq_of_fp (by with_unfolding_all decide)

lemma c2st_238 : raceState RACE_DISTANCE DT [c2runner] 238 =
    [⟨"", "", 0, 5, 10, 100, 10, 1, 0, "calm", "", 922/5, 8, 24777/400, false, none⟩] := by
  rw [show (238:ℕ) = 237+1 from rfl, raceState_succ, c2st_237]
  exact singleton_eq_of_fp (by with_unfolding_all decide)

lemma c2st_239 : raceState RACE_DISTANCE DT [c2runner] 239 =
    [⟨"", "", 0, 5, 10, 100, 10, 1, 0, "calm", "", 926/5, 8, 24709/400, false, none⟩] := by
  rw [show (239:ℕ) = 238+1 from rfl, raceState_succ, c2st_238]
  exact singleton_eq_of_fp (by with_unfolding_all decide)

lemma c2st_240 : raceState RACE_DISTANCE DT [c2runner] 240 =
    [⟨"", "", 0, 5, 10, 100, 10, 1, 0, "calm", "", 186, 8, 24641/400, false, none⟩] := by
  rw [show (240:ℕ) = 239+1 from rfl, raceState_succ, c2st_239]
  exact singleton_eq_of_fp (by with_unfolding_all decide)

lemma c2st_241 : raceState RACE_DISTANCE DT [c2runner] 241 =
    [⟨"", "", 0, 5, 10, 100, 10, 1, 0, "calm", "", 934/5, 8, 24573/400, false, none⟩] := by
  rw [show (241:ℕ) = 240+1 from rfl, raceState_succ, c2st_240]
  exact singleton_eq_of_fp (by with_unfolding_all decide)

lemma c2st_242 : raceState RACE_DISTANCE DT [c2runner] 242 =
    [⟨"", "", 0, 5, 10, 100, 10, 1, 0, "calm", "", 938/5, 8, 4901/80, false, none⟩] := by
  rw [show (242:ℕ) = 241+1 from rfl, raceState_succ, c2st_241]
  exact singleton_eq_of_fp (by with_unfolding_all decide)

lemma c2st_243 : raceState RACE_DISTANCE DT [c2runner] 243 =
    [⟨"", "", 0, 5, 10, 100, 10, 1, 0, "calm", "", 942/5, 8, 24437/400, false, none⟩] := by
  rw [show (243:ℕ) = 242+1 from rfl, raceState_succ, c2st_242]
  exact singleton_eq_of_fp (by with_unfolding_all decide)

lemma c2st_244 : raceState RACE_DISTANCE DT [c2runner] 244 =
    [⟨"", "", 0, 5, 10, 100, 10, 1, 0, "calm", "", 946/5, 8, 24369/400, false, none⟩] := by
  rw [show (244:ℕ) = 243+1 from rfl, raceState_succ, c2st_243]
  exact singleton_eq_of_fp (by with_unfolding_all decide)

lemma c2st_245 : raceState RACE_DISTANCE DT [c2runner] 245 =
    [⟨"", "", 0, 5, 10, 100, 10, 1, 0, "calm", "", 190, 8, 24301/400, false, none⟩] := by
  rw [show (245:ℕ) = 244+1 from rfl, raceState_succ, c2st_244]
  exact singleton_eq_of_fp (by with_unfolding_all decide)

lemma c2st_246 : raceState RACE_DISTANCE DT [c2runner] 246 =
    [⟨"", "", 0, 5, 10, 100, 10, 1, 0, "calm", "", 954/5, 8, 24233/400, false, none⟩] := by
  rw [show (246:ℕ) = 245+1 from rfl, raceState_succ, c2st_245]
  exact singleton_eq_of_fp (by with_unfolding_all decide)

lemma c2st_247 : raceState RACE_DISTANCE DT [c2runner] 247 =
    [⟨"", "", 0, 5, 10, 100, 10, 1, 0, "calm", "", 958/5, 8, 4833/80, false, none⟩] := by
  rw [show (247:ℕ) = 246+1 from rfl, raceState_succ, c2st_246]
  exact singleton_eq_of_fp (by with_unfolding_all decide)

lemma c2st_248 : raceState RACE_DISTANCE DT [c2runner] 248 =
    [⟨"", "", 0, 5, 10, 100, 10, 1, 0, "calm", "", 962/5, 8, 24097/400, false, none⟩] := by
  rw [show (248:ℕ) = 247+1 from rfl, raceState_succ, c2st_247]
  exact singleton_eq_of_fp (by with_unfolding_all decide)

lemma c2st_249 : raceState RACE_DISTANCE DT [c2runner] 249 =
    [⟨"", "", 0, 5, 10, 100, 10, 1, 0, "calm", "", 966/5, 8, 24029/400, false, none⟩] := by
  rw [show (249:ℕ) = 248+1 from rfl, raceState_succ, c2st_248]
  exact singleton_eq_of_fp (by with_unfolding_all decide)

lemma c2st_250 : raceState RACE_DISTANCE DT [c2runner] 250 =
    [⟨"", "", 0, 5, 10, 100, 10, 1, 0, "calm", "", 194, 8, 23961/400, false, none⟩] := by
  rw [show (250:ℕ) = 249+1 from rfl, raceState_succ, c2st_249]
  exact singleton_eq_of_fp (by with_unfolding_all decide)

lemma c2st_251 : raceState RACE_DISTANCE DT [c2runner] 251 =
    [⟨"", "", 0, 5, 10, 100, 10, 1, 0, "calm", "", 974/5, 8, 23893/400, false, none⟩] := by
  rw [show (251:ℕ) = 250+1 from rfl, raceState_succ, c2st_250]
  exact singleton_eq_of_fp (by with_unfolding_all decide)

lemma c2st_252 : raceState RACE_DISTANCE DT [c2runner] 252 =
    [⟨"", "", 0, 5, 10, 100, 10, 1, 0, "calm", "", 978/5, 8, 953/16, false, none⟩] := by
  rw [show (252:ℕ) = 251+1 from rfl, raceState_succ, c2st_251]
  exact singleton_eq_of_fp (by with_unfolding_all decide)

lemma c2st_253 : raceState RACE_DISTANCE DT [c2runner] 253 =
    [⟨"", "", 0, 5, 10, 100, 10, 1, 0, "calm", "", 982/5, 8, 23757/400, false, none⟩] := by
  rw [show (253:ℕ) = 252+1 from rfl, raceState_succ, c2st_252]
  exact singleton_eq_of_fp (by with_unfolding_all decide)

lemma c2st_254 : raceState RACE_DISTANCE DT [c2runner] 254 =
    [⟨"", "", 0, 5, 10, 100, 10, 1, 0, "calm", "", 986/5, 8, 23689/400, false, none⟩] := by
  rw [show (254:ℕ) = 253+1 from rfl, raceState_succ, c2st_253]
  exact singleton_eq_of_fp (by with_unfolding_all decide)

lemma c2st_255 : raceState RACE_DISTANCE DT [c2runner] 255 =
    [⟨"", "", 0, 5, 10, 100, 10, 1, 0, "calm", "", 198, 8, 23621/400, false, none⟩] := by
  rw [show (255:ℕ) = 254+1 from rfl, raceState_succ, c2st_254]
  exact singleton_eq_of_fp (by with_unfolding_all decide)

lemma c2st_256 : raceState RACE_DISTANCE DT [c2runner] 256 =
    [⟨"", "", 0, 5, 10, 100, 10, 1, 0, "calm", "", 994/5, 8, 23553/400, false, none⟩] := by
  rw [show (256:ℕ) = 255+1 from rfl, raceState_succ, c2st_255]
  exact singleton_eq_of_fp (by with_unfolding_all decide)

lemma c2st_257 : raceState RACE_DISTANCE DT [c2runner] 257 =
    [⟨"", "", 0, 5, 10, 100, 10, 1, 0, "calm", "", 998/5, 8, 4697/80, false, none⟩] := by
  rw [show (257:ℕ) = 256+1 from rfl, raceState_succ, c2st_256]
  exact singleton_eq_of_fp (by with_unfolding_all decide)

lemma c2st_258 : raceState RACE_DISTANCE DT [c2runner] 258 =
    [⟨"", "", 0, 5, 10, 100, 10, 1, 0, "calm", "", 200, 8, 23417/400, true, some (257/10)⟩] := by
  rw [show (258:ℕ) = 257+1 from rfl, raceState_succ, c2st_257]
  exact singleton_eq_of_fp (by with_unfolding_all decide)

lemma c2_not_all_finished_257 :
    allFinished (raceState RACE_DISTANCE DT [c2runner] 257) = false := by
  rw [c2st_257]
  with_unfolding_all decide

lemma c2_all_finished_258 :
    allFinished (raceState RACE_DISTANCE DT [c2runner] 258) = true := by
  rw [c2st_258]
  with_unfolding_all decide

lemma c2_guard_true : ∀ k : Nat, k < 258 →
    loopCont MAX_RACE_TIME ((k:ℚ)*DT)
      (raceState RACE_DISTANCE DT [c2runner] k) = true := by
  intro k hk
  apply (loopCont_true_iff _ _ _).2
  constructor
  · have hc : (k:ℚ) < 258 := by exact_mod_cast hk
    unfold DT MAX_RACE_TIME
    linarith
  · rcases hb : allFinished (raceState RACE_DISTANCE DT [c2runner] k)
      with hf | hf
    · rfl
    · have hmono := allFinished_raceState_mono RACE_DISTANCE DT [c2runner]
        (show k ≤ 257 by omega) hb
      have h257 := c2_not_all_finished_257
      rw [hmono] at h257
      exact Bool.noConfusion h257

lemma c2_guard_false :
    loopCont MAX_RACE_TIME (((258:ℕ):ℚ)*DT)
      (raceState RACE_DISTANCE DT [c2runner] 258) = false :=
  (loopCont_false_iff _ _ _).2 (Or.inr c2_all_finished_258)

/-- The race over the reference roster runs exactly 258 ticks. -/
lemma c2_final_runners :
    (simulateRace RACE_DISTANCE DT MAX_RACE_TIME [c2runner]).2.1 =
      raceState RACE_DISTANCE DT [c2runner] 258 := by
  rw [simulateRace_stops c2_guard_false c2_guard_true
    (by with_unfolding_all decide)]

/-- C2 (amended): the scenario runner (acceleration 5, top speed 10,
stamina 100, regen 10, burst 1, no fatigue, calm, no ability, dt 0.1,
distance 200) finishes with finish time exactly 25.7 s: 7 ticks (0.7 s)
above the ideal 200/(0.8*10) = 25 s, the distance lost during the
discrete ramp-up being 6 m, not 1-2 ticks as claimed. -/
theorem c2_scenario_finish :
    ((simulateRace RACE_DISTANCE DT MAX_RACE_TIME [c2runner]).2.1).map
        (fun r => (r.finished, r.finish_time)) = [(true, some (257/10))] ∧
    (257/10 : ℚ) - 200 / (0.8 * 10) = 7/10 := by
  constructor
  · rw [c2_final_runners, c2st_258]
    with_unfolding_all decide
  · norm_num

/-- Counterexample to C2 as stated: the finish time is 25.7 s, which
deviates from 25.0 s by 0.7 s, more than the claimed 0.1-0.2 s. -/
theorem c2_counterexample :
    ((simulateRace RACE_DISTANCE DT MAX_RACE_TIME [c2runner]).2.1).map
        (fun r => r.finish_time) = [some (257/10)] ∧
    ¬ (|(257/10 : ℚ) - 200 / (0.8 * 10)| ≤ 2/10) := by
  constructor
  · rw [c2_final_runners, c2st_258]
    with_unfolding_all decide
  · rw [abs_of_nonneg (by norm_num)]
    norm_num

/-- Witness for C7: a cap of 1/20 s with one tick of 1/10 s; the single
runner cannot finish, so it is a DNF and the loop stops within one
`dt` of the cap. -/
theorem c7_loop_terminates_witness :
    ((0:ℚ) < 1/10) ∧
    (simulateRace 200 (1/10) (1/20) [c2runner]).1.length ≤
      (⌈(1/20 : ℚ) / (1/10)⌉).toNat ∧
    (∀ r ∈ (simulateRace 200 (1/10) (1/20) [c2runner]).2.1,
      r.finish_time = none) ∧
    (1/20 : ℚ) ≤ (simulateRace 200 (1/10) (1/20) [c2runner]).2.2 ∧
    (simulateRace 200 (1/10) (1/20) [c2runner]).2.2 < 1/20 + 1/10 := by
  have h := c7_loop_terminates 200 (1/10) (1/20) [c2runner] (by norm_num)
  have h6 := h.2.2.2.2.2 (by norm_num) (by simp)
    (by with_unfolding_all decide) (by with_unfolding_all decide)
  exact ⟨by norm_num, h.1, h6.1, h6.2.1, h6.2.2⟩

/-! ## Totality of the guarded computations (claim C9) -/

lemma drainedStaminaChecked_eq (r : Runner) (st dt : ℚ) :
    drainedStaminaChecked r st dt = some (drainedStamina r st dt) := by
  by_cases h : 0 < r.top_speed
  · have hne : r.top_speed ≠ 0 := ne_of_gt h
    simp [drainedStaminaChecked, drainedStamina, pyDiv, speedFraction, h, hne]
  · simp [drainedStaminaChecked, drainedStamina, pyDiv, speedFraction, h]

lemma effectiveTargetChecked_eq (r : Runner) (tgt st : ℚ) :
    effectiveTargetChecked r tgt st = some (effectiveTarget r tgt st) := by
  by_cases h : 0 < r.stamina_max
  · have hne : r.stamina_max ≠ 0 := ne_of_gt h
    simp [effectiveTargetChecked, effectiveTarget, pyDiv, h, hne]
  · simp [effectiveTargetChecked, effectiveTarget, pyDiv, h]

lemma updateChecked_eq (rd : ℚ) (r : Runner) (dt gt rp : ℚ) :
    updateChecked rd r dt gt rp = some (update rd r dt gt rp) := by
  rcases hfin : r.finished with hf | hf
  · simp only [updateChecked, update, hfin, Bool.false_eq_true, if_false]
    simp only [drainedStaminaChecked_eq, effectiveTargetChecked_eq,
      Option.some_bind]
    simp [newStamina, newSpeed]
  · simp [updateChecked, update, hfin]

lemma raceProgressChecked_eq (rd : ℚ) (rs : List Runner) (hne : rs ≠ []) :
    raceProgressChecked rd rs = some (raceProgress rd rs) := by
  have hlen : ((rs.length : ℚ)) ≠ 0 := by
    have h0 : rs.length ≠ 0 := fun h => hne (List.length_eq_zero.1 h)
    exact_mod_cast h0
  unfold raceProgressChecked raceProgress pyDiv
  rw [if_neg hlen]
  by_cases h : 0 < rd
  · have hrd : rd ≠ 0 := ne_of_gt h
    simp [h, hrd]
  · simp [h]

lemma mapChecked_some (f : Runner → Option Runner) (g : Runner → Runner)
    (hfg : ∀ r, f r = some (g r)) (l : List Runner) :
    mapChecked f l = some (l.map g) := by
  induction l with
  | nil => rfl
  | cons a t ih => simp [mapChecked, hfg a, ih]

lemma tickAllChecked_eq (rd dt t : ℚ) (rs : List Runner) (hne : rs ≠ []) :
    tickAllChecked rd dt t rs = some (tickAll rd dt t rs) := by
  unfold tickAllChecked tickAll
  rw [raceProgressChecked_eq rd rs hne]
  exact mapChecked_some _ _ (fun r => updateChecked_eq rd r dt t _) rs

lemma allFinished_false_ne_nil {rs : List Runner}
    (h : allFinished rs = false) : rs ≠ [] := by
  intro hcon
  rw [hcon] at h
  exact Bool.noConfusion h

lemma runLoopChecked_eq (rd dt maxT : ℚ) :
    ∀ (fuel : Nat) (t : ℚ) (rs : List Runner) (fs : List Frame),
      runLoopChecked rd dt maxT fuel t rs fs =
        some (runLoop rd dt maxT fuel t rs fs) := by
  intro fuel
  induction fuel with
  | zero => intro t rs fs; rfl
  | succ f ih =>
    intro t rs fs
    show (if loopCont maxT t rs = true then _ else _) =
      some (if loopCont maxT t rs = true then _ else _)
    rcases hg : loopCont maxT t rs with h | h
    · simp only [Bool.false_eq_true, if_false]
    · simp only [if_true]
      have hne : rs ≠ [] :=
        allFinished_false_ne_nil ((loopCont_true_iff _ _ _).1 hg).2
      rw [tickAllChecked_eq rd dt t rs hne]
      exact ih _ _ _

/-- C9: the single-tick update and the race loop are total.  A variant of
the code in which every Python division fails on a zero denominator (as
`pyDiv`) always succeeds and computes exactly the guarded result: the
guards `top_speed > 0`, `stamina_max > 0`, `race_distance > 0` and the
loop guard (which keeps the roster nonempty at the average computation)
ensure no division by zero for any finite input, including degenerate
static parameters. -/
theorem c9_totality :
    (∀ (rd : ℚ) (r : Runner) (dt gt rp : ℚ),
      updateChecked rd r dt gt rp = some (update rd r dt gt rp)) ∧
    (∀ (rd dt maxT : ℚ) (rs : List Runner),
      simulateRaceChecked rd dt maxT rs =
        some (simulateRace rd dt maxT rs)) :=
  ⟨updateChecked_eq, fun rd dt maxT rs => runLoopChecked_eq rd dt maxT _ _ _ _⟩

/-! ## Ranking (claims C3 and C10) -/

lemma ranking_perm (rs : List Runner) : (ranking rs).Perm rs :=
  List.perm_insertionSort _ _

lemma ranking_sorted (rs : List Runner) : (ranking rs).Pairwise rkLE :=
  List.sorted_insertionSort _ _

lemma sortKey_some {r : Runner} {a : ℚ} (h : r.finish_time = some a) :
    sortKey r = a := by
  unfold sortKey
  rw [h]

lemma sortKey_none {r : Runner} (h : r.finish_time = none) :
    sortKey r = 1e9 := by
  unfold sortKey
  rw [h]

lemma ranking_get_le (rs : List Runner) (i j : Fin (ranking rs).length)
    (hij : i < j) :
    sortKey ((ranking rs).get i) ≤ sortKey ((ranking rs).get j) :=
  List.pairwise_iff_get.1 (ranking_sorted rs) i j hij

/-- Stability of the ranking: the elements satisfying a predicate that
forces mutual `rkLE` keep their original relative order. -/
lemma ranking_filter_eq (rs : List Runner) (p : Runner → Bool)
    (hp : ∀ a b : Runner, p a = true → p b = true → rkLE a b) :
    (ranking rs).filter p = rs.filter p := by
  have hpair : (rs.filter p).Pairwise rkLE := by
    apply List.pairwise_of_forall_mem_list
    intro a ha b hb
    exact hp a b (List.of_mem_filter ha) (List.of_mem_filter hb)
  have hsub : List.Sublist (rs.filter p) (ranking rs) :=
    List.sublist_insertionSort hpair (List.filter_sublist rs)
  have hsub2 : List.Sublist (rs.filter p) ((ranking rs).filter p) := by
    have h1 := hsub.filter p
    rwa [List.filter_filter, show (fun a => p a && p a) = p by
      funext a
      exact Bool.and_self _] at h1
  have hlen : ((ranking rs).filter p).length = (rs.filter p).length :=
    ((ranking_perm rs).filter p).length_eq
  exact (hsub2.eq_of_length hlen.symm).symm

/-- C3 (amended): the ranking is a permutation of the roster, sorted by
the DNF-sentinel key; a finished runner with a strictly smaller finish
time is placed strictly earlier (so placed-before implies
finish-time-less-or-equal rather than strictly-less, ties being resolved
by roster order); any unfinished runner is placed after every finished
runner whose time is below the sentinel; and runners with equal keys keep
their roster order. -/
theorem c3_ranking_law (rs : List Runner) :
    (ranking rs).Perm rs ∧
    (∀ i j : Fin (ranking rs).length, i < j →
      sortKey ((ranking rs).get i) ≤ sortKey ((ranking rs).get j)) ∧
    (∀ (i j : Fin (ranking rs).length) (a b : ℚ),
      ((ranking rs).get i).finish_time = some a →
      ((ranking rs).get j).finish_time = some b →
      a < b → i < j) ∧
    (∀ (i j : Fin (ranking rs).length) (b : ℚ),
      ((ranking rs).get i).finish_time = none →
      ((ranking rs).get j).finish_time = some b →
      b < 1e9 → j < i) ∧
    (∀ q : ℚ, (ranking rs).filter (fun r => decide (sortKey r = q)) =
      rs.filter (fun r => decide (sortKey r = q))) := by
  refine ⟨ranking_perm rs, ranking_get_le rs, ?_, ?_, ?_⟩
  · intro i j a b hi hj hab
    rcases lt_trichotomy i j with h | h | h
    · exact h
    · exfalso
      rw [h, hj] at hi
      exact absurd (Option.some_inj.1 hi) (ne_of_gt hab)
    · exfalso
      have := ranking_get_le rs j i h
      rw [sortKey_some hi, sortKey_some hj] at this
      exact absurd hab (not_lt.2 this)
  · intro i j b hi hj hb
    rcases lt_trichotomy j i with h | h | h
    · exact h
    · exfalso
      rw [h, hi] at hj
      exact Option.noConfusion hj
    · exfalso
      have := ranking_get_le rs i j h
      rw [sortKey_none hi, sortKey_some hj] at this
      exact absurd hb (not_lt.2 this)
  · intro q
    apply ranking_filter_eq
    intro a b ha hb
    unfold rkLE
    rw [of_decide_eq_true ha, of_decide_eq_true hb]

/-- Witness for C3: on the demo roster the DNF runner is placed after the
fastest finisher. -/
theorem c3_ranking_law_witness :
    ((ranking demoRoster).get
        ⟨2, by with_unfolding_all decide⟩).finish_time = none ∧
    ((ranking demoRoster).get
        ⟨0, by with_unfolding_all decide⟩).finish_time = some 3 ∧
    (3:ℚ) < 1e9 ∧
    (⟨0, by with_unfolding_all decide⟩ : Fin (ranking demoRoster).length) <
      ⟨2, by with_unfolding_all decide⟩ := by
  refine ⟨by with_unfolding_all decide, by with_unfolding_all decide,
    by norm_num, ?_⟩
  exact (c3_ranking_law demoRoster).2.2.2.1 _ _ 3
    (by with_unfolding_all decide) (by with_unfolding_all decide)
    (by norm_num)

/-- C10: in a completed race run from a fresh roster, every set finish
time lies in `[0, MAX_RACE_TIME)`, hence below the `1e9` DNF sentinel, so
in the final ranking an unfinished competitor is never placed before a
finished one (everything after a DNF entry is a DNF entry). -/
theorem c10_finish_time_in_range (rd dt : ℚ) (rs0 : List Runner)
    (hdt : 0 < dt) (hinit : ∀ r ∈ rs0, r.finish_time = none) :
    (∀ r ∈ (simulateRace rd dt MAX_RACE_TIME rs0).2.1,
      ∀ τ, r.finish_time = some τ →
        0 ≤ τ ∧ τ < MAX_RACE_TIME ∧ τ < 1e9) ∧
    (∀ i j : Fin (ranking (simulateRace rd dt MAX_RACE_TIME rs0).2.1).length,
      i < j →
      ((ranking (simulateRace rd dt MAX_RACE_TIME rs0).2.1).get i).finish_time
        = none →
      ((ranking (simulateRace rd dt MAX_RACE_TIME rs0).2.1).get j).finish_time
        = none) := by
  have hex : ∃ n : Nat,
      loopCont MAX_RACE_TIME ((n:ℚ)*dt) (raceState rd dt rs0 n) = false :=
    ⟨(⌈MAX_RACE_TIME / dt⌉).toNat, guard_fails_at_ceil hdt⟩
  have hN := Nat.find_spec hex
  have hlt : ∀ k, k < Nat.find hex →
      loopCont MAX_RACE_TIME ((k:ℚ)*dt) (raceState rd dt rs0 k) = true := by
    intro k hk
    have h := Nat.find_min hex hk
    rcases hb : loopCont MAX_RACE_TIME ((k:ℚ)*dt) (raceState rd dt rs0 k)
      with hf | hf
    · exact absurd hb h
    · rfl
  have hsim := simulateRace_stops hN hlt
    (le_trans (Nat.find_min' hex (guard_fails_at_ceil hdt))
      (by unfold raceFuel; omega))
  have hguards : ∀ k, k < Nat.find hex → (k:ℚ)*dt < MAX_RACE_TIME :=
    fun k hk => ((loopCont_true_iff _ _ _).1 (hlt k hk)).1
  have hinv := @raceState_ft_inv rd dt MAX_RACE_TIME rs0 (Nat.find hex)
    hdt hguards hinit
  have hfinal : ∀ r ∈ (simulateRace rd dt MAX_RACE_TIME rs0).2.1,
      ∀ τ, r.finish_time = some τ →
        0 ≤ τ ∧ τ < MAX_RACE_TIME ∧ τ < 1e9 := by
    rw [hsim]
    intro r hr τ hτ
    have h := (hinv r hr).2 τ hτ
    refine ⟨h.1, h.2, ?_⟩
    have hM : MAX_RACE_TIME < 1e9 := by norm_num [MAX_RACE_TIME]
    linarith [h.2]
  refine ⟨hfinal, ?_⟩
  intro i j hij hi
  rcases hj : ((ranking (simulateRace rd dt MAX_RACE_TIME rs0).2.1).get
      j).finish_time with _ | τ
  · rfl
  · exfalso
    have hmem : (ranking (simulateRace rd dt MAX_RACE_TIME rs0).2.1).get j ∈
        (simulateRace rd dt MAX_RACE_TIME rs0).2.1 :=
      ((ranking_perm _).mem_iff).1 (List.get_mem _ j.1 j.2)
    have hbound := hfinal _ hmem τ hj
    have hle := ranking_get_le _ i j hij
    rw [sortKey_none hi, sortKey_some hj] at hle
    linarith [hbound.2.2]

/-- Witness for C10: a one-runner roster with a fresh runner. -/
theorem c10_finish_time_in_range_witness :
    ((0:ℚ) < 1) ∧ dnfRunner.finish_time = none ∧
    (∀ r ∈ (simulateRace 200 1 MAX_RACE_TIME [dnfRunner]).2.1,
      ∀ τ, r.finish_time = some τ →
        0 ≤ τ ∧ τ < MAX_RACE_TIME ∧ τ < 1e9) := by
  have h := c10_finish_time_in_range 200 1 [dnfRunner] (by norm_num)
    (by intro r hr
        rw [List.mem_singleton.1 hr]
        rfl)
  exact ⟨by norm_num, rfl, h.1⟩

/-- Counterexample to C3 as stated: two distinct runners with the same
finish time; the first is placed before the second although its finish
time is not strictly smaller, refuting the claimed biconditional. -/
theorem c3_counterexample :
    ranking [tieRunnerA, tieRunnerB] = [tieRunnerA, tieRunnerB] ∧
    tieRunnerA.finish_time = some 5 ∧ tieRunnerB.finish_time = some 5 ∧
    tieRunnerA.name ≠ tieRunnerB.name ∧ ¬ ((5:ℚ) < 5) := by
  with_unfolding_all decide

/-- Witness for C6: a runner standing at position 40. -/
theorem c6_deep_inhale_bonus_witness :
    lungRunner.ability = "deep_inhale" ∧ lungRunner.finished = false ∧
    (update 200 lungRunner 1 0 0).stamina =
      drainedStamina lungRunner
        (lungRunner.stamina +
          (if ⌊lungRunner.position⌋ % 20 = 0 ∧ 0 < lungRunner.position then
            lungRunner.stamina_regen * 3.0 * 1
          else 0)) 1 := by
  refine ⟨rfl, rfl, ?_⟩
  exact c6_deep_inhale_bonus 200 lungRunner 1 0 0 rfl rfl

end DrSonic
